import Mathlib

/-! # Slide navigator of the 3D horse carousel

A shallow embedding of the carousel core found in `src/carousel.js` (the
self-contained script with module-level `state` and `elements`) and in
`src/js/components/carousel.js` (the ES-module variant that threads `state`
and `elements` explicitly), followed by theorems about it.

Conventions of the embedding.

* JavaScript numbers that hold slot indices and offsets are integers; they are
  modelled by `Int` (`Nat` for `totalCards`, which is a `NodeList` length).
  The one division, `totalCards / 2`, is a real division in JavaScript; the
  comparison `offset > totalCards / 2` is taken as `2 * offset > totalCards`
  (`cardOffset_eq_division` shows the two readings agree).
* The mutable `state` object, the `elements` the code reads, the browser timer
  queue and the visual output of `positionCards` are gathered in `Page`;
  every function maps a `Page` to an `Outcome`, the page it leaves behind
  together with a flag telling whether a `TypeError` escaped.
* `setTimeout` callbacks are data (`TimerAction`); `advance` lets time pass and
  runs the callbacks that have come due.
* Every event listener is a function of what it reads from the event (the
  key, the touch point, the wheel deltas, whether the carousel section is
  there and visible) and of the page; `Event.step` runs one of them.
-/

namespace Carousel

/-! ## Configuration (`CONFIG`, `CAROUSEL_CONFIG`) -/

/-- A named preset of `CONFIG.POSITIONS`: a CSS transform and an opacity. -/
structure Preset where
  transform : String
  opacity : ℚ
  deriving DecidableEq, Repr

/-- The `HIDDEN` entry of `CONFIG.POSITIONS`, kept as numbers. -/
structure HiddenPreset where
  translateX : Int
  translateZ : Int
  rotateY : Int
  scale : ℚ
  opacity : ℚ
  deriving DecidableEq, Repr

/-- The record `CONFIG.POSITIONS`. -/
structure Positions where
  CENTER : Preset
  FIRST_RIGHT : Preset
  FIRST_LEFT : Preset
  SECOND_RIGHT : Preset
  SECOND_LEFT : Preset
  HIDDEN : HiddenPreset
  deriving DecidableEq, Repr

/-- The timing part of `CONFIG` together with `POSITIONS`. -/
structure Config where
  ANIMATION_DURATION : Nat
  CLICK_DEBOUNCE : Nat
  WHEEL_DEBOUNCE : Nat
  SWIPE_THRESHOLD : Int
  POSITIONS : Positions
  deriving DecidableEq, Repr

/-- `CONFIG` of `src/carousel.js`, lines 14-50. -/
def CONFIG : Config where
  ANIMATION_DURATION := 600
  CLICK_DEBOUNCE := 300
  WHEEL_DEBOUNCE := 500
  SWIPE_THRESHOLD := 50
  POSITIONS := {
    CENTER := ⟨"translateX(0) translateZ(0) rotateY(0deg) scale(1)", 1⟩
    FIRST_RIGHT := ⟨"translateX(200px) translateZ(-120px) rotateY(-20deg) scale(0.88)", 0.8⟩
    FIRST_LEFT := ⟨"translateX(-200px) translateZ(-120px) rotateY(20deg) scale(0.88)", 0.8⟩
    SECOND_RIGHT := ⟨"translateX(350px) translateZ(-250px) rotateY(-30deg) scale(0.75)", 0.5⟩
    SECOND_LEFT := ⟨"translateX(-350px) translateZ(-250px) rotateY(30deg) scale(0.75)", 0.5⟩
    HIDDEN := { translateX := 450, translateZ := -400, rotateY := 40, scale := 0.6, opacity := 0 } }

/-- `CAROUSEL_CONFIG` of `src/js/config/constants.js`, lines 19-53. -/
def CAROUSEL_CONFIG : Config where
  ANIMATION_DURATION := 600
  CLICK_DEBOUNCE := 300
  WHEEL_DEBOUNCE := 500
  SWIPE_THRESHOLD := 50
  POSITIONS := {
    CENTER := ⟨"translateX(0) translateZ(0) rotateY(0deg) scale(1)", 1⟩
    FIRST_RIGHT := ⟨"translateX(200px) translateZ(-120px) rotateY(-20deg) scale(0.88)", 0.8⟩
    FIRST_LEFT := ⟨"translateX(-200px) translateZ(-120px) rotateY(20deg) scale(0.88)", 0.8⟩
    SECOND_RIGHT := ⟨"translateX(350px) translateZ(-250px) rotateY(-30deg) scale(0.75)", 0.5⟩
    SECOND_LEFT := ⟨"translateX(-350px) translateZ(-250px) rotateY(30deg) scale(0.75)", 0.5⟩
    HIDDEN := { translateX := 450, translateZ := -400, rotateY := 40, scale := 0.6, opacity := 0 } }

/-! ## Data model -/

/-- The `state` object (`src/carousel.js` lines 74-80, `createCarouselState`).
`clickTimeout` and `wheelTimeout` hold `null` (`none`) or a timer handle. -/
structure State where
  currentIndex : Int
  totalCards : Nat
  isAnimating : Bool
  clickTimeout : Option Nat
  wheelTimeout : Option Nat
  deriving DecidableEq, Repr

/-- The part of `elements` the navigator core reads: `cards` (`horseCards` in
the module variant) is `null` or a `NodeList` of the given length, and so is
`dots`. -/
structure Elements where
  cards : Option Nat
  dots : Option Nat
  deriving DecidableEq, Repr

/-- What a pending `setTimeout` callback does when it runs. -/
inductive TimerAction where
  | clearAnimating
  | clearClickTimeout
  | clearWheelTimeout
  deriving DecidableEq, Repr

/-- A pending timer: its handle, the time it comes due, its callback. -/
structure Timer where
  id : Nat
  due : Nat
  action : TimerAction
  deriving DecidableEq, Repr

/-- The `transform` string of a card: one of the literal strings of the
named presets, or the template literal of the `default` branch of
`calculateCardPosition`,
`translateX(${a}px) translateZ(${b}px) rotateY(${c}deg) scale(${d})`,
kept as the four numbers interpolated into it. -/
inductive Transform where
  | css (text : String)
  | template (translateX translateZ rotateY : Int) (scale : ℚ)
  deriving DecidableEq, Repr

/-- The value `calculateCardPosition` returns. -/
structure CardPosition where
  transform : Transform
  opacity : ℚ
  zIndex : Int
  isActive : Bool
  deriving DecidableEq, Repr

/-- The output of one run of `positionCards`: per card the computed position
(style writes and the `active` class), and the `active` flag of every
indicator dot (`none` when there are no dots to update). -/
structure Frame where
  cards : List CardPosition
  dots : Option (List Bool)
  deriving DecidableEq, Repr

/-- Everything the navigator reads and writes: the `state` object, the
`elements`, the clock and timer queue of the browser, and the frames emitted
so far (newest first). -/
structure Page where
  state : State
  elements : Elements
  now : Nat
  lastTimerId : Nat
  timers : List Timer
  frames : List Frame
  deriving DecidableEq, Repr

/-- The page a call leaves behind, and whether a `TypeError` escaped it. -/
structure Outcome where
  page : Page
  threw : Bool
  deriving DecidableEq, Repr

/-! ## Timers -/

/-- `setTimeout(callback, delay)`: queue the callback and return a fresh,
positive handle. -/
def setTimeout (action : TimerAction) (delay : Nat) (p : Page) : Page × Nat :=
  let id := p.lastTimerId + 1
  ({ p with lastTimerId := id, timers := p.timers ++ [⟨id, p.now + delay, action⟩] }, id)

/-- Run one timer callback on the state. -/
def runCallback (s : State) : TimerAction → State
  | .clearAnimating => { s with isAnimating := false }
  | .clearClickTimeout => { s with clickTimeout := none }
  | .clearWheelTimeout => { s with wheelTimeout := none }

/-- Let `dt` time units pass with no input event: every timer that has come
due by then runs, earliest first (registration order among equals). -/
def advance (dt : Nat) (p : Page) : Page :=
  let t := p.now + dt
  let due := (p.timers.filter (fun x => x.due ≤ t)).insertionSort (fun a b => a.due ≤ b.due)
  { p with
    now := t
    timers := p.timers.filter (fun x => ¬ x.due ≤ t)
    state := due.foldl (fun s x => runCallback s x.action) p.state }

/-! ## Rendering (`src/carousel.js`) -/

/-- The `offset` local of `positionCards` (lines 278-286): the distance from
the current card, wrapped for the infinite-loop effect. The two `if`s run one
after the other, as in the source. -/
def cardOffset (index currentIndex : Int) (totalCards : Nat) : Int :=
  let offset := index - currentIndex
  let offset := if 2 * offset > (totalCards : Int) then offset - totalCards else offset
  let offset := if 2 * offset < -(totalCards : Int) then offset + totalCards else offset
  offset

/-- `calculateCardPosition(offset)` (lines 231-270); the `switch` compares
with strict equality, case by case. -/
def calculateCardPosition (state : State) (offset : Int) : CardPosition :=
  let positions := CONFIG.POSITIONS
  let zIndex : Int := state.totalCards - |offset|
  if offset = 0 then
    ⟨.css positions.CENTER.transform, positions.CENTER.opacity, zIndex, true⟩
  else if offset = 1 then
    ⟨.css positions.FIRST_RIGHT.transform, positions.FIRST_RIGHT.opacity, zIndex, false⟩
  else if offset = -1 then
    ⟨.css positions.FIRST_LEFT.transform, positions.FIRST_LEFT.opacity, zIndex, false⟩
  else if offset = 2 then
    ⟨.css positions.SECOND_RIGHT.transform, positions.SECOND_RIGHT.opacity, zIndex, false⟩
  else if offset = -2 then
    ⟨.css positions.SECOND_LEFT.transform, positions.SECOND_LEFT.opacity, zIndex, false⟩
  else
    let direction : Int := if offset > 0 then 1 else -1
    let hidden := positions.HIDDEN
    ⟨.template (direction * hidden.translateX) hidden.translateZ (direction * -hidden.rotateY)
        hidden.scale, hidden.opacity, zIndex, false⟩

/-- `updateIndicators()` (lines 309-315): nothing when `elements.dots` is
`null`, else dot `index` is active exactly when `index === state.currentIndex`. -/
def updateIndicators (p : Page) : Option (List Bool) :=
  p.elements.dots.map fun n =>
    (List.range n).map fun index : Nat => decide ((index : Int) = p.state.currentIndex)

/-- `positionCards()` (lines 275-304). `elements.cards.forEach` throws a
`TypeError` when `elements.cards` is still `null`; otherwise one frame is
emitted. -/
def positionCards (p : Page) : Outcome :=
  match p.elements.cards with
  | none => ⟨p, true⟩
  | some n =>
    let cards := (List.range n).map fun index : Nat =>
      calculateCardPosition p.state
        (cardOffset (index : Int) p.state.currentIndex p.state.totalCards)
    ⟨{ p with frames := ⟨cards, updateIndicators p⟩ :: p.frames }, false⟩

/-! ## Navigation (`src/carousel.js`) -/

/-- `goToSlide(index)` (lines 320-341). -/
def goToSlide (index : Int) (p : Page) : Outcome :=
  if p.state.isAnimating then ⟨p, false⟩
  else
    let p := { p with state := { p.state with isAnimating := true } }
    let p := { p with state := { p.state with
      currentIndex :=
        if index < 0 then (p.state.totalCards : Int) - 1
        else if index ≥ (p.state.totalCards : Int) then 0
        else index } }
    let r := positionCards p
    if r.threw then r
    else ⟨(setTimeout .clearAnimating CONFIG.ANIMATION_DURATION r.page).1, false⟩

/-- `nextSlide()` (lines 346-348). -/
def nextSlide (p : Page) : Outcome :=
  goToSlide (p.state.currentIndex + 1) p

/-- `prevSlide()` (lines 353-355). -/
def prevSlide (p : Page) : Outcome :=
  goToSlide (p.state.currentIndex - 1) p

/-- The click listener `createIndicators` puts on dot `i` (lines 215-219). -/
def dotClick (i : Nat) (p : Page) : Outcome :=
  if !p.state.isAnimating && decide ((i : Int) ≠ p.state.currentIndex) then goToSlide i p
  else ⟨p, false⟩

/-! ### The public object `window.HorseCarousel` (lines 511-518) -/

namespace HorseCarousel

/-- `next: nextSlide`. -/
def next (p : Page) : Outcome := nextSlide p

/-- `prev: prevSlide`. -/
def prev (p : Page) : Outcome := prevSlide p

/-- `goTo: goToSlide`. -/
def goTo (index : Int) (p : Page) : Outcome := goToSlide index p

/-- `getCurrentIndex: () => state.currentIndex`. -/
def getCurrentIndex (p : Page) : Int := p.state.currentIndex

/-- `getTotalCards: () => state.totalCards`. -/
def getTotalCards (p : Page) : Nat := p.state.totalCards

end HorseCarousel

/-! ## The module variant (`src/js/components/carousel.js`)

Here `state` and `elements` are arguments; they are the fields of the same
names of `Page`. -/

namespace Components

/-- `calculateCardPosition(offset, totalCards, positions)` (lines 146-183). -/
def calculateCardPosition (offset : Int) (totalCards : Nat) (positions : Positions) :
    CardPosition :=
  let zIndex : Int := totalCards - |offset|
  if offset = 0 then
    ⟨.css positions.CENTER.transform, positions.CENTER.opacity, zIndex, true⟩
  else if offset = 1 then
    ⟨.css positions.FIRST_RIGHT.transform, positions.FIRST_RIGHT.opacity, zIndex, false⟩
  else if offset = -1 then
    ⟨.css positions.FIRST_LEFT.transform, positions.FIRST_LEFT.opacity, zIndex, false⟩
  else if offset = 2 then
    ⟨.css positions.SECOND_RIGHT.transform, positions.SECOND_RIGHT.opacity, zIndex, false⟩
  else if offset = -2 then
    ⟨.css positions.SECOND_LEFT.transform, positions.SECOND_LEFT.opacity, zIndex, false⟩
  else
    let direction : Int := if offset > 0 then 1 else -1
    let hidden := positions.HIDDEN
    ⟨.template (direction * hidden.translateX) hidden.translateZ (direction * -hidden.rotateY)
        hidden.scale, hidden.opacity, zIndex, false⟩

/-- The `offset` local of `positionCards` (lines 114-118). -/
def cardOffset (index currentIndex : Int) (totalCards : Nat) : Int :=
  let offset := index - currentIndex
  let offset := if 2 * offset > (totalCards : Int) then offset - totalCards else offset
  let offset := if 2 * offset < -(totalCards : Int) then offset + totalCards else offset
  offset

/-- `positionCards(elements, state)` (lines 108-137); `horseCards.forEach`
throws when `elements.horseCards` is not a list. -/
def positionCards (p : Page) : Outcome :=
  let currentIndex := p.state.currentIndex
  let totalCards := p.state.totalCards
  let positions := CAROUSEL_CONFIG.POSITIONS
  match p.elements.cards with
  | none => ⟨p, true⟩
  | some n =>
    let cards := (List.range n).map fun index : Nat =>
      calculateCardPosition (cardOffset (index : Int) currentIndex totalCards) totalCards
        positions
    let dots := p.elements.dots.map fun m =>
      (List.range m).map fun index : Nat => decide ((index : Int) = currentIndex)
    ⟨{ p with frames := ⟨cards, dots⟩ :: p.frames }, false⟩

/-- `goToSlide(index, state, elements)` (lines 191-209). -/
def goToSlide (index : Int) (p : Page) : Outcome :=
  if p.state.isAnimating then ⟨p, false⟩
  else
    let p := { p with state := { p.state with isAnimating := true } }
    let p := { p with state := { p.state with
      currentIndex :=
        if index < 0 then (p.state.totalCards : Int) - 1
        else if index ≥ (p.state.totalCards : Int) then 0
        else index } }
    let r := positionCards p
    if r.threw then r
    else ⟨(setTimeout .clearAnimating CAROUSEL_CONFIG.ANIMATION_DURATION r.page).1, false⟩

/-- `nextSlide(state, elements)` (lines 216-218). -/
def nextSlide (p : Page) : Outcome :=
  goToSlide (p.state.currentIndex + 1) p

/-- `prevSlide(state, elements)` (lines 225-227). -/
def prevSlide (p : Page) : Outcome :=
  goToSlide (p.state.currentIndex - 1) p

/-- The click listener `createIndicators` puts on dot `i` (lines 91-95). -/
def dotClick (i : Nat) (p : Page) : Outcome :=
  if !p.state.isAnimating && decide ((i : Int) ≠ p.state.currentIndex) then goToSlide i p
  else ⟨p, false⟩

end Components

/-! ## Input adapters (`src/carousel.js`) -/

/-- JavaScript truthiness of a timer slot, as tested by
`if (state.clickTimeout)`: `null` is falsy, and so is the number 0; the
handles `setTimeout` returns are positive. -/
def truthy : Option Nat → Bool
  | some (_ + 1) => true
  | _ => false

/-- What a listener that may call `e.preventDefault()` leaves behind: the
page, whether a `TypeError` escaped, whether `preventDefault` was called. -/
structure Handled where
  page : Page
  threw : Bool
  defaultPrevented : Bool
  deriving DecidableEq, Repr

/-- The click listener of the next button (`attachButtonEvents`, lines
377-385). The lock is set only after `nextSlide()` has returned. -/
def nextBtnClick (p : Page) : Outcome :=
  if truthy p.state.clickTimeout then ⟨p, false⟩
  else
    let r := nextSlide p
    if r.threw then r
    else
      let (q, id) := setTimeout .clearClickTimeout CONFIG.CLICK_DEBOUNCE r.page
      ⟨{ q with state := { q.state with clickTimeout := some id } }, false⟩

/-- The click listener of the previous button (`attachButtonEvents`, lines
389-397). -/
def prevBtnClick (p : Page) : Outcome :=
  if truthy p.state.clickTimeout then ⟨p, false⟩
  else
    let r := prevSlide p
    if r.threw then r
    else
      let (q, id) := setTimeout .clearClickTimeout CONFIG.CLICK_DEBOUNCE r.page
      ⟨{ q with state := { q.state with clickTimeout := some id } }, false⟩

/-- The `keydown` listener (`attachKeyboardEvents`, lines 405-420).
`carouselSection` is what `$('#games-carousel')` finds: `none` when the
element is absent, else whether it carries the class `is-visible`. -/
def keydown (carouselSection : Option Bool) (key : String) (p : Page) : Handled :=
  match carouselSection with
  | none => ⟨p, false, false⟩
  | some visible =>
    if !visible then ⟨p, false, false⟩
    else if key = "ArrowRight" then
      let r := nextSlide p
      ⟨r.page, r.threw, true⟩
    else if key = "ArrowLeft" then
      let r := prevSlide p
      ⟨r.page, r.threw, true⟩
    else ⟨p, false, false⟩

/-- The closure variables of `attachTouchEvents` (lines 429-432). Screen
coordinates of a touch point are integers. -/
structure TouchState where
  touchStartX : Int
  touchStartY : Int
  touchEndX : Int
  isSwiping : Bool
  deriving DecidableEq, Repr

/-- The `touchstart` listener (lines 434-438), at the touch point `(x, y)`. -/
def touchstart (x y : Int) (t : TouchState) : TouchState :=
  { t with touchStartX := x, touchStartY := y, isSwiping := true }

/-- The `touchmove` listener (lines 440-450), at the touch point `(x, y)`. -/
def touchmove (x y : Int) (t : TouchState) : TouchState :=
  if !t.isSwiping then t
  else if |y - t.touchStartY| > |x - t.touchStartX| then { t with isSwiping := false }
  else t

/-- The `touchend` listener (lines 452-469), at the touch point with
horizontal coordinate `x`. When the navigation call throws, the final
`isSwiping = false` is not reached. -/
def touchend (x : Int) (t : TouchState) (p : Page) : TouchState × Outcome :=
  if !t.isSwiping then (t, ⟨p, false⟩)
  else
    let t := { t with touchEndX := x }
    let diff := t.touchStartX - t.touchEndX
    let r :=
      if |diff| > CONFIG.SWIPE_THRESHOLD then
        if diff > 0 then nextSlide p else prevSlide p
      else ⟨p, false⟩
    if r.threw then (t, r) else ({ t with isSwiping := false }, r)

/-- The fields of a `wheel` event the listener reads. -/
structure WheelEvent where
  deltaX : ℚ
  deltaY : ℚ
  shiftKey : Bool
  deriving DecidableEq, Repr

/-- The `wheel` listener (`attachWheelEvents`, lines 478-502). -/
def wheel (carouselSection : Option Bool) (e : WheelEvent) (p : Page) : Handled :=
  match carouselSection with
  | none => ⟨p, false, false⟩
  | some visible =>
    if !visible then ⟨p, false, false⟩
    else if |e.deltaX| > |e.deltaY| ∨ e.shiftKey = true then
      if truthy p.state.wheelTimeout then ⟨p, false, true⟩
      else
        let r :=
          if e.deltaX > 0 ∨ (e.shiftKey = true ∧ e.deltaY > 0) then nextSlide p
          else prevSlide p
        if r.threw then ⟨r.page, true, true⟩
        else
          let (q, id) := setTimeout .clearWheelTimeout CONFIG.WHEEL_DEBOUNCE r.page
          ⟨{ q with state := { q.state with wheelTimeout := some id } }, false, true⟩
    else ⟨p, false, false⟩

/-! ## Input adapters of the module variant (`src/js/components/carousel.js`) -/

namespace Components

/-- The click listener of the next button (`attachCarouselEvents`, lines
240-246). -/
def nextBtnClick (p : Page) : Outcome :=
  if truthy p.state.clickTimeout then ⟨p, false⟩
  else
    let r := nextSlide p
    if r.threw then r
    else
      let (q, id) := setTimeout .clearClickTimeout CAROUSEL_CONFIG.CLICK_DEBOUNCE r.page
      ⟨{ q with state := { q.state with clickTimeout := some id } }, false⟩

/-- The click listener of the previous button (`attachCarouselEvents`, lines
250-256). -/
def prevBtnClick (p : Page) : Outcome :=
  if truthy p.state.clickTimeout then ⟨p, false⟩
  else
    let r := prevSlide p
    if r.threw then r
    else
      let (q, id) := setTimeout .clearClickTimeout CAROUSEL_CONFIG.CLICK_DEBOUNCE r.page
      ⟨{ q with state := { q.state with clickTimeout := some id } }, false⟩

/-- The `keydown` listener (`attachKeyboardEvents`, lines 275-287): the
section test is written positively here, `carouselSection && hasClass(...)`. -/
def keydown (carouselSection : Option Bool) (key : String) (p : Page) : Handled :=
  if (match carouselSection with
      | none => false
      | some visible => visible) then
    if key = "ArrowRight" then
      let r := nextSlide p
      ⟨r.page, r.threw, true⟩
    else if key = "ArrowLeft" then
      let r := prevSlide p
      ⟨r.page, r.threw, true⟩
    else ⟨p, false, false⟩
  else ⟨p, false, false⟩

/-- The `touchstart` listener (lines 304-308). -/
def touchstart (x y : Int) (t : TouchState) : TouchState :=
  { t with touchStartX := x, touchStartY := y, isSwiping := true }

/-- The `touchmove` listener (lines 310-320). -/
def touchmove (x y : Int) (t : TouchState) : TouchState :=
  if !t.isSwiping then t
  else if |y - t.touchStartY| > |x - t.touchStartX| then { t with isSwiping := false }
  else t

/-- The `touchend` listener (lines 322-338). -/
def touchend (x : Int) (t : TouchState) (p : Page) : TouchState × Outcome :=
  if !t.isSwiping then (t, ⟨p, false⟩)
  else
    let t := { t with touchEndX := x }
    let diff := t.touchStartX - t.touchEndX
    let r :=
      if |diff| > CAROUSEL_CONFIG.SWIPE_THRESHOLD then
        if diff > 0 then nextSlide p else prevSlide p
      else ⟨p, false⟩
    if r.threw then (t, r) else ({ t with isSwiping := false }, r)

/-- The `wheel` listener (`attachWheelEvents`, lines 348-369). -/
def wheel (carouselSection : Option Bool) (e : WheelEvent) (p : Page) : Handled :=
  match carouselSection with
  | none => ⟨p, false, false⟩
  | some visible =>
    if !visible then ⟨p, false, false⟩
    else if |e.deltaX| > |e.deltaY| ∨ e.shiftKey = true then
      if truthy p.state.wheelTimeout then ⟨p, false, true⟩
      else
        let r :=
          if e.deltaX > 0 ∨ (e.shiftKey = true ∧ e.deltaY > 0) then nextSlide p
          else prevSlide p
        if r.threw then ⟨r.page, true, true⟩
        else
          let (q, id) := setTimeout .clearWheelTimeout CAROUSEL_CONFIG.WHEEL_DEBOUNCE r.page
          ⟨{ q with state := { q.state with wheelTimeout := some id } }, false, true⟩
    else ⟨p, false, false⟩

end Components

/-! ## Scenarios -/

/-- A call on the public surface of the navigator. -/
inductive Intent where
  | next
  | previous
  | goto (index : Int)
  deriving DecidableEq, Repr

/-- Dispatch of an intent to `src/carousel.js`. -/
def Intent.run : Intent → Page → Outcome
  | .next => nextSlide
  | .previous => prevSlide
  | .goto index => goToSlide index

/-- Dispatch of an intent to `src/js/components/carousel.js`. -/
def Components.run : Intent → Page → Outcome
  | .next => Components.nextSlide
  | .previous => Components.prevSlide
  | .goto index => Components.goToSlide index

/-- Issue the calls one after the other, each at a moment when `isAnimating`
is false, and let the given time pass after each call. The result lists the
page right after each call; it is `none` when a call would have to be made
while `isAnimating` is true. -/
def runCalls (run : Intent → Page → Outcome) : List (Intent × Nat) → Page → Option (List Page)
  | [], _ => some []
  | (call, wait) :: rest, p =>
    if p.state.isAnimating then none
    else
      let q := (run call p).page
      (runCalls run rest (advance wait q)).map (q :: ·)

/-- A freshly initialised page with `n` cards and `n` dots: `currentIndex` 0,
nothing animating, no timer pending, no frame recorded. -/
def freshPage (n : Nat) : Page :=
  ⟨⟨0, n, false, none, none⟩, ⟨some n, some n⟩, 0, 0, [], []⟩

/-- An initialised page with `n` cards and `n` dots at rest on slot `c`:
nothing animating, no lock set, no timer pending. -/
def restingPage (n : Nat) (c : Int) : Page :=
  ⟨⟨c, n, false, none, none⟩, ⟨some n, some n⟩, 0, 0, [], []⟩

/-- The module-level `state` and `elements` of `src/carousel.js` as the
script declares them (lines 74-94), before `init` has run or after `init`
has found no carousel: no cards counted, every element `null`. -/
def initialPage : Page :=
  ⟨⟨0, 0, false, none, none⟩, ⟨none, none⟩, 0, 0, [], []⟩

/-- The page `init` leaves behind when the carousel is there but holds no
card: `elements.cards` is an empty list and `init` has returned at its
validation, so `totalCards` is still 0. -/
def emptyCarouselPage : Page :=
  ⟨⟨0, 0, false, none, none⟩, ⟨some 0, none⟩, 0, 0, [], []⟩

/-- The position the latest frame gives card `k`. -/
def Page.card (p : Page) (k : Nat) : Option CardPosition :=
  p.frames.head?.bind fun frame => frame.cards[k]?

/-- The `active` flag the latest frame gives dot `k`. -/
def Page.dot (p : Page) (k : Nat) : Option Bool :=
  p.frames.head?.bind fun frame => frame.dots.bind fun dots => dots[k]?

/-- How many cards the latest frame marks `active`. -/
def Page.activeCards (p : Page) : Nat :=
  match p.frames.head? with
  | some frame => frame.cards.countP fun card => card.isActive
  | none => 0

/-- How many dots the latest frame marks `active`; none when the frame
updated no dots. -/
def Page.activeDots (p : Page) : Nat :=
  match p.frames.head? with
  | some ⟨_, some dots⟩ => dots.count true
  | _ => 0

/-- An initialised page with `n` cards at rest on slot `c` whose markup has
no `.carousel-indicators` container, so that `createIndicators` returned at
once and `elements.dots` is still `null`. -/
def pageWithoutDots (n : Nat) (c : Int) : Page :=
  ⟨⟨c, n, false, none, none⟩, ⟨some n, none⟩, 0, 0, [], []⟩

/-- How many cards the latest frame shows, that is, gives an opacity above
0. -/
def Page.visibleCards (p : Page) : Nat :=
  match p.frames.head? with
  | some frame => frame.cards.countP fun card => decide (0 < card.opacity)
  | none => 0

/-- How many cards the latest frame hides, that is, gives opacity 0. -/
def Page.hiddenCards (p : Page) : Nat :=
  match p.frames.head? with
  | some frame => frame.cards.countP fun card => decide (card.opacity = 0)
  | none => 0

/-- The pending timers of a page whose callback is the given one. -/
def Page.pending (p : Page) (action : TimerAction) : List Timer :=
  p.timers.filter fun x => x.action = action

/-- Whether the flag a timer callback releases is set: `isAnimating` for
the animation timer, the truthiness of `clickTimeout` and of `wheelTimeout`
for the two debounce timers. -/
def State.locked (s : State) : TimerAction → Bool
  | .clearAnimating => s.isAnimating
  | .clearClickTimeout => truthy s.clickTimeout
  | .clearWheelTimeout => truthy s.wheelTimeout

/-- Flags and timer queue agree: for each of the three flags, a flag that
is clear has no release pending, and no flag has two releases pending. -/
def Page.Consistent (p : Page) : Prop :=
  ∀ action : TimerAction,
    (p.state.locked action = false → p.pending action = []) ∧
    (p.pending action).length ≤ 1

/-- One whole touch: `touchstart` at `start`, a `touchmove` at every sample
in turn, `touchend` at the horizontal coordinate `xEnd`. -/
def touchSequence (start : Int × Int) (samples : List (Int × Int)) (xEnd : Int)
    (t : TouchState) (p : Page) : TouchState × Outcome :=
  touchend xEnd
    (samples.foldl (fun t sample => touchmove sample.1 sample.2 t)
      (touchstart start.1 start.2 t)) p

/-- One whole touch, through the listeners of the module variant. -/
def Components.touchSequence (start : Int × Int) (samples : List (Int × Int)) (xEnd : Int)
    (t : TouchState) (p : Page) : TouchState × Outcome :=
  Components.touchend xEnd
    (samples.foldl (fun t sample => Components.touchmove sample.1 sample.2 t)
      (Components.touchstart start.1 start.2 t)) p

/-- The page with its two debounce locks overwritten. -/
def Page.withLocks (p : Page) (clickTimeout wheelTimeout : Option Nat) : Page :=
  { p with state := { p.state with clickTimeout := clickTimeout, wheelTimeout := wheelTimeout } }

/-- The page together with the closure variables of the touch listeners. -/
structure Browser where
  page : Page
  touch : TouchState
  deriving DecidableEq, Repr

/-- Whatever can happen to the page of `src/carousel.js`: an input event
reaching one of its listeners, a call of the public object, or time passing. -/
inductive Event where
  | nextBtnClick
  | prevBtnClick
  | dotClick (i : Nat)
  | keydown (carouselSection : Option Bool) (key : String)
  | touchstart (x y : Int)
  | touchmove (x y : Int)
  | touchend (x : Int)
  | wheel (carouselSection : Option Bool) (e : WheelEvent)
  | call (intent : Intent)
  | elapse (dt : Nat)
  deriving DecidableEq, Repr

/-- One event, run to completion. An error that escapes a listener ends that
listener only; what it had written stays. -/
def Event.step : Event → Browser → Browser
  | .nextBtnClick, b => { b with page := (Carousel.nextBtnClick b.page).page }
  | .prevBtnClick, b => { b with page := (Carousel.prevBtnClick b.page).page }
  | .dotClick i, b => { b with page := (Carousel.dotClick i b.page).page }
  | .keydown carouselSection key, b =>
    { b with page := (Carousel.keydown carouselSection key b.page).page }
  | .touchstart x y, b => { b with touch := Carousel.touchstart x y b.touch }
  | .touchmove x y, b => { b with touch := Carousel.touchmove x y b.touch }
  | .touchend x, b =>
    ⟨(Carousel.touchend x b.touch b.page).2.page, (Carousel.touchend x b.touch b.page).1⟩
  | .wheel carouselSection e, b =>
    { b with page := (Carousel.wheel carouselSection e b.page).page }
  | .call intent, b => { b with page := (intent.run b.page).page }
  | .elapse dt, b => { b with page := advance dt b.page }

/-- A sequence of events, one after the other. -/
def runEvents (events : List Event) (b : Browser) : Browser :=
  events.foldl (fun b e => e.step b) b

/-! ## Basic facts -/

theorem Components.calculateCardPosition_eq (s : State) (offset : Int) :
    Components.calculateCardPosition offset s.totalCards CAROUSEL_CONFIG.POSITIONS
      = Carousel.calculateCardPosition s offset := rfl

theorem Components.cardOffset_eq (index currentIndex : Int) (totalCards : Nat) :
    Components.cardOffset index currentIndex totalCards
      = Carousel.cardOffset index currentIndex totalCards := rfl

theorem Components.positionCards_eq (p : Page) :
    Components.positionCards p = Carousel.positionCards p := rfl

theorem Components.goToSlide_eq (index : Int) (p : Page) :
    Components.goToSlide index p = Carousel.goToSlide index p := rfl

theorem Components.nextSlide_eq (p : Page) :
    Components.nextSlide p = Carousel.nextSlide p := rfl

theorem Components.prevSlide_eq (p : Page) :
    Components.prevSlide p = Carousel.prevSlide p := rfl

theorem Components.dotClick_eq (i : Nat) (p : Page) :
    Components.dotClick i p = Carousel.dotClick i p := rfl

theorem Components.run_eq : Components.run = Intent.run := by
  funext call p
  cases call <;> rfl

/-- What `positionCards` emits on a page with its card list: card `index` gets
the position computed from its wrapped offset, and the dots follow
`updateIndicators`. -/
theorem positionCards_frames (p : Page) (n : Nat) (h : p.elements.cards = some n) :
    (positionCards p).page.frames =
      ⟨(List.range n).map fun index : Nat =>
          calculateCardPosition p.state
            (cardOffset index p.state.currentIndex p.state.totalCards),
        updateIndicators p⟩ :: p.frames := by
  simp [positionCards, h]

/-- While a transition runs, `goToSlide` returns at its first line. -/
theorem goToSlide_of_animating (index : Int) (p : Page) (h : p.state.isAnimating = true) :
    goToSlide index p = ⟨p, false⟩ := by
  simp [goToSlide, h]

/-- The index `goToSlide` stores when no transition runs. -/
theorem goToSlide_currentIndex (index : Int) (p : Page) (h : p.state.isAnimating = false) :
    (goToSlide index p).page.state.currentIndex =
      if index < 0 then (p.state.totalCards : Int) - 1
      else if index ≥ (p.state.totalCards : Int) then 0
      else index := by
  cases hc : p.elements.cards <;> simp [goToSlide, positionCards, setTimeout, h, hc]

theorem goToSlide_isAnimating (index : Int) (p : Page) (h : p.state.isAnimating = false) :
    (goToSlide index p).page.state.isAnimating = true := by
  cases hc : p.elements.cards <;> simp [goToSlide, positionCards, setTimeout, h, hc]

theorem goToSlide_totalCards (index : Int) (p : Page) :
    (goToSlide index p).page.state.totalCards = p.state.totalCards := by
  cases hc : p.elements.cards <;> cases ha : p.state.isAnimating <;>
    simp [goToSlide, positionCards, setTimeout, ha, hc]

theorem goToSlide_elements (index : Int) (p : Page) :
    (goToSlide index p).page.elements = p.elements := by
  cases hc : p.elements.cards <;> cases ha : p.state.isAnimating <;>
    simp [goToSlide, positionCards, setTimeout, ha, hc]

theorem goToSlide_now (index : Int) (p : Page) :
    (goToSlide index p).page.now = p.now := by
  cases hc : p.elements.cards <;> cases ha : p.state.isAnimating <;>
    simp [goToSlide, positionCards, setTimeout, ha, hc]

/-- An error escapes `goToSlide` exactly when it gets past the guard and the
card list is missing; the index passed plays no part. -/
theorem goToSlide_threw (index : Int) (p : Page) :
    (goToSlide index p).threw = true ↔
      p.state.isAnimating = false ∧ p.elements.cards = none := by
  cases hc : p.elements.cards <;> cases ha : p.state.isAnimating <;>
    simp [goToSlide, positionCards, setTimeout, ha, hc]

/-- With the card list in place, an accepted `goToSlide` queues exactly one
timer, the release of the animation lock after `ANIMATION_DURATION`. -/
theorem goToSlide_timers (index : Int) (p : Page) (h : p.state.isAnimating = false)
    (hc : p.elements.cards ≠ none) :
    (goToSlide index p).page.timers =
      p.timers ++ [⟨p.lastTimerId + 1, p.now + CONFIG.ANIMATION_DURATION, .clearAnimating⟩] := by
  cases hc' : p.elements.cards with
  | none => exact absurd hc' hc
  | some n => simp [goToSlide, positionCards, setTimeout, h, hc']

/-! ## Facts about timers -/

theorem runCallback_currentIndex (s : State) (a : TimerAction) :
    (runCallback s a).currentIndex = s.currentIndex := by
  cases a <;> rfl

theorem runCallback_totalCards (s : State) (a : TimerAction) :
    (runCallback s a).totalCards = s.totalCards := by
  cases a <;> rfl

theorem foldl_runCallback_currentIndex (l : List Timer) (s : State) :
    (l.foldl (fun s x => runCallback s x.action) s).currentIndex = s.currentIndex := by
  induction l generalizing s with
  | nil => rfl
  | cons x l ih => rw [List.foldl_cons, ih, runCallback_currentIndex]

theorem foldl_runCallback_totalCards (l : List Timer) (s : State) :
    (l.foldl (fun s x => runCallback s x.action) s).totalCards = s.totalCards := by
  induction l generalizing s with
  | nil => rfl
  | cons x l ih => rw [List.foldl_cons, ih, runCallback_totalCards]

/-- No callback ever sets `isAnimating`. -/
theorem foldl_runCallback_isAnimating_false (l : List Timer) (s : State)
    (h : s.isAnimating = false) :
    (l.foldl (fun s x => runCallback s x.action) s).isAnimating = false := by
  induction l generalizing s with
  | nil => exact h
  | cons x l ih =>
    rw [List.foldl_cons]
    apply ih
    cases hx : x.action <;> simp [runCallback, h]

/-- Once the release callback of the animation lock is among those run, the
lock is open afterwards. -/
theorem foldl_runCallback_isAnimating_of_mem (l : List Timer) (s : State) (x : Timer)
    (hx : x ∈ l) (ha : x.action = .clearAnimating) :
    (l.foldl (fun s x => runCallback s x.action) s).isAnimating = false := by
  induction l generalizing s with
  | nil => cases hx
  | cons y l ih =>
    rw [List.foldl_cons]
    rcases List.mem_cons.mp hx with rfl | hmem
    · apply foldl_runCallback_isAnimating_false
      simp [runCallback, ha]
    · exact ih _ hmem

/-- Callbacks other than the release of the animation lock leave it alone. -/
theorem foldl_runCallback_isAnimating_of_forall (l : List Timer) (s : State)
    (h : ∀ x ∈ l, x.action ≠ .clearAnimating) :
    (l.foldl (fun s x => runCallback s x.action) s).isAnimating = s.isAnimating := by
  induction l generalizing s with
  | nil => rfl
  | cons y l ih =>
    rw [List.foldl_cons, ih _ (fun x hx => h x (List.mem_cons_of_mem _ hx))]
    have hy := h y (List.mem_cons_self _ _)
    cases hya : y.action <;> simp_all [runCallback]

theorem advance_currentIndex (dt : Nat) (p : Page) :
    (advance dt p).state.currentIndex = p.state.currentIndex := by
  simp [advance, foldl_runCallback_currentIndex]

theorem advance_totalCards (dt : Nat) (p : Page) :
    (advance dt p).state.totalCards = p.state.totalCards := by
  simp [advance, foldl_runCallback_totalCards]

theorem advance_elements (dt : Nat) (p : Page) :
    (advance dt p).elements = p.elements := rfl

theorem advance_isAnimating_of_idle (dt : Nat) (p : Page) (h : p.state.isAnimating = false) :
    (advance dt p).state.isAnimating = false := by
  simp only [advance]
  exact foldl_runCallback_isAnimating_false _ _ h

/-- A pending release of the animation lock that has come due has run. -/
theorem advance_isAnimating_of_due (dt : Nat) (p : Page) (x : Timer) (hx : x ∈ p.timers)
    (ha : x.action = .clearAnimating) (hd : x.due ≤ p.now + dt) :
    (advance dt p).state.isAnimating = false := by
  simp only [advance]
  apply foldl_runCallback_isAnimating_of_mem _ _ x _ ha
  rw [(List.perm_insertionSort _ _).mem_iff, List.mem_filter]
  exact ⟨hx, by simpa using hd⟩

/-- As long as no release of the animation lock has come due, the lock stays
as it is. -/
theorem advance_isAnimating_of_not_due (dt : Nat) (p : Page)
    (h : ∀ x ∈ p.timers, x.action = .clearAnimating → p.now + dt < x.due) :
    (advance dt p).state.isAnimating = p.state.isAnimating := by
  simp only [advance]
  apply foldl_runCallback_isAnimating_of_forall
  intro x hx ha
  rw [(List.perm_insertionSort _ _).mem_iff, List.mem_filter] at hx
  have := h x hx.1 ha
  have hle : x.due ≤ p.now + dt := by simpa using hx.2
  omega

/-- After an accepted `goToSlide` on a page with its card list, the lock is
open again once `ANIMATION_DURATION` has passed. -/
theorem advance_goToSlide_isAnimating (index : Int) (p : Page) (dt : Nat)
    (h : p.state.isAnimating = false) (hc : p.elements.cards ≠ none)
    (hdt : CONFIG.ANIMATION_DURATION ≤ dt) :
    (advance dt (goToSlide index p).page).state.isAnimating = false := by
  apply advance_isAnimating_of_due dt _
    ⟨p.lastTimerId + 1, p.now + CONFIG.ANIMATION_DURATION, .clearAnimating⟩
  · rw [goToSlide_timers index p h hc]; simp
  · rfl
  · rw [goToSlide_now]; simp only; omega

/-- After an accepted `goToSlide` from a page with no release of the
animation lock pending, the lock stays shut until `ANIMATION_DURATION` has
passed. -/
theorem advance_goToSlide_isAnimating_before (index : Int) (p : Page) (dt : Nat)
    (h : p.state.isAnimating = false)
    (hclean : ∀ x ∈ p.timers, x.action ≠ .clearAnimating)
    (hdt : dt < CONFIG.ANIMATION_DURATION) :
    (advance dt (goToSlide index p).page).state.isAnimating = true := by
  rw [advance_isAnimating_of_not_due, goToSlide_isAnimating index p h]
  intro x hx ha
  rw [goToSlide_now]
  cases hc : p.elements.cards with
  | none =>
    have : (goToSlide index p).page.timers = p.timers := by
      simp [goToSlide, positionCards, h, hc]
    rw [this] at hx
    exact absurd ha (hclean x hx)
  | some n =>
    rw [goToSlide_timers index p h (by simp [hc])] at hx
    rcases List.mem_append.mp hx with hold | hnew
    · exact absurd ha (hclean x hold)
    · rw [List.mem_singleton] at hnew
      subst hnew
      simp only
      omega

/-! ## Facts about the offset -/

/-- Comparing an integer with half of `totalCards`, as the source does, is
comparing its double with `totalCards`. -/
theorem half_lt_iff (offset : Int) (totalCards : Nat) :
    (totalCards : ℚ) / 2 < (offset : ℚ) ↔ (totalCards : Int) < 2 * offset := by
  constructor
  · intro h
    have h2 : (totalCards : ℚ) < 2 * (offset : ℚ) := by linarith
    exact_mod_cast h2
  · intro h
    have h2 : (totalCards : ℚ) < 2 * (offset : ℚ) := by exact_mod_cast h
    linarith

theorem lt_neg_half_iff (offset : Int) (totalCards : Nat) :
    (offset : ℚ) < -(totalCards : ℚ) / 2 ↔ 2 * offset < -(totalCards : Int) := by
  constructor
  · intro h
    have h2 : 2 * (offset : ℚ) < -(totalCards : ℚ) := by linarith
    exact_mod_cast h2
  · intro h
    have h2 : 2 * (offset : ℚ) < -(totalCards : ℚ) := by exact_mod_cast h
    linarith

/-- The offset of `positionCards` written with the division of the source. -/
theorem cardOffset_eq_division (index currentIndex : Int) (totalCards : Nat) :
    cardOffset index currentIndex totalCards =
      (let offset := index - currentIndex
       let offset :=
        if ((offset : Int) : ℚ) > (totalCards : ℚ) / 2 then offset - totalCards else offset
       let offset :=
        if ((offset : Int) : ℚ) < -(totalCards : ℚ) / 2 then offset + totalCards else offset
       offset) := by
  simp only [cardOffset, gt_iff_lt, half_lt_iff, lt_neg_half_iff]

/-- The offset is the plain difference when that is at most half the ring in
size, and the difference moved by one full turn otherwise. -/
theorem cardOffset_cases (N : Nat) (c k : Int) :
    (cardOffset k c N = k - c ∧ -(N : Int) ≤ 2 * (k - c) ∧ 2 * (k - c) ≤ N) ∨
    (cardOffset k c N = k - c - N ∧ (N : Int) < 2 * (k - c)) ∨
    (cardOffset k c N = k - c + N ∧ 2 * (k - c) < -(N : Int)) := by
  unfold cardOffset
  simp only
  split_ifs <;> omega

theorem cardOffset_two_mul_bounds (N : Nat) (c k : Int) (hc0 : 0 ≤ c) (hcN : c < N)
    (hk0 : 0 ≤ k) (hkN : k < N) :
    -(N : Int) ≤ 2 * cardOffset k c N ∧ 2 * cardOffset k c N ≤ N := by
  rcases cardOffset_cases N c k with ⟨h, _, _⟩ | ⟨h, _⟩ | ⟨h, _⟩ <;>
    rw [h] <;> omega

/-! ## Facts about single calls -/

/-- Every intent funnels into `goToSlide`. -/
theorem Intent.run_eq_goToSlide (call : Intent) (p : Page) :
    ∃ index, Intent.run call p = goToSlide index p := by
  cases call with
  | next => exact ⟨_, rfl⟩
  | previous => exact ⟨_, rfl⟩
  | goto index => exact ⟨index, rfl⟩

/-- Whatever index an accepted `goToSlide` is given, the index it stores is
a slot of the ring. -/
theorem goToSlide_currentIndex_mem (index : Int) (p : Page) (h : p.state.isAnimating = false)
    (h1 : 1 ≤ p.state.totalCards) :
    0 ≤ (goToSlide index p).page.state.currentIndex ∧
      (goToSlide index p).page.state.currentIndex < p.state.totalCards := by
  rw [goToSlide_currentIndex index p h]
  split_ifs <;> omega

theorem nextSlide_currentIndex (p : Page) (h : p.state.isAnimating = false)
    (h0 : 0 ≤ p.state.currentIndex) (hlt : p.state.currentIndex < p.state.totalCards) :
    (nextSlide p).page.state.currentIndex
      = (p.state.currentIndex + 1) % (p.state.totalCards : Int) := by
  unfold nextSlide
  rw [goToSlide_currentIndex _ p h]
  split_ifs with ha hb
  · omega
  · have : p.state.currentIndex + 1 = (p.state.totalCards : Int) := by omega
    rw [this, Int.emod_self]
  · rw [Int.emod_eq_of_lt (by omega) (by omega)]

theorem prevSlide_currentIndex (p : Page) (h : p.state.isAnimating = false)
    (h0 : 0 ≤ p.state.currentIndex) (hlt : p.state.currentIndex < p.state.totalCards) :
    (prevSlide p).page.state.currentIndex
      = (p.state.currentIndex - 1 + p.state.totalCards) % (p.state.totalCards : Int) := by
  unfold prevSlide
  rw [goToSlide_currentIndex _ p h]
  split_ifs with ha hb
  · have : p.state.currentIndex = 0 := by omega
    rw [this, show (0 : Int) - 1 + (p.state.totalCards : Int) = (p.state.totalCards : Int) - 1 by
      omega, Int.emod_eq_of_lt (by omega) (by omega)]
  · omega
  · rw [Int.add_emod_self, Int.emod_eq_of_lt (by omega) (by omega)]

/-! ## Facts about runs of calls -/

theorem runCalls_currentIndex_mem (N : Nat) (h1 : 1 ≤ N) (calls : List (Intent × Nat)) :
    ∀ (p : Page) (trace : List Page), p.state.totalCards = N →
      runCalls Intent.run calls p = some trace →
      ∀ q ∈ trace, 0 ≤ q.state.currentIndex ∧ q.state.currentIndex < N := by
  induction calls with
  | nil =>
    intro p trace _ h q hq
    simp [runCalls] at h
    subst h
    cases hq
  | cons cw rest ih =>
    obtain ⟨call, wait⟩ := cw
    intro p trace hN h q hq
    cases ha : p.state.isAnimating with
    | true => simp [runCalls, ha] at h
    | false =>
      simp only [runCalls, ha, Bool.false_eq_true, if_false, Option.map_eq_some'] at h
      obtain ⟨tail, htail, rfl⟩ := h
      obtain ⟨index, hrun⟩ := Intent.run_eq_goToSlide call p
      rcases List.mem_cons.mp hq with rfl | hmem
      · rw [hrun, ← hN]
        exact goToSlide_currentIndex_mem index p ha (by omega)
      · refine ih _ tail ?_ htail q hmem
        rw [advance_totalCards, hrun, goToSlide_totalCards, hN]

/-- On a page with its card list, calls spaced by at least
`ANIMATION_DURATION` are each made while `isAnimating` is false. -/
theorem runCalls_isSome (calls : List (Intent × Nat)) :
    ∀ (p : Page), p.state.isAnimating = false → p.elements.cards ≠ none →
      (∀ cw ∈ calls, CONFIG.ANIMATION_DURATION ≤ cw.2) →
      (runCalls Intent.run calls p).isSome = true := by
  induction calls with
  | nil => intro p _ _ _; rfl
  | cons cw rest ih =>
    obtain ⟨call, wait⟩ := cw
    intro p ha hc hw
    obtain ⟨index, hrun⟩ := Intent.run_eq_goToSlide call p
    have hwait : CONFIG.ANIMATION_DURATION ≤ wait := hw (call, wait) (List.mem_cons_self _ _)
    have hrest := ih (advance wait (goToSlide index p).page)
      (advance_goToSlide_isAnimating index p wait ha hc hwait)
      (by rw [advance_elements, goToSlide_elements]; exact hc)
      (fun cw hcw => hw cw (List.mem_cons_of_mem _ hcw))
    simp only [runCalls, ha, Bool.false_eq_true, if_false, Option.isSome_map', hrun]
    exact hrest

/-- A run of `next()` calls from slot `c` ends `length` slots further round
the ring. -/
theorem runCalls_next_last (N : Nat) (h1 : 1 ≤ N) (waits : List Nat) :
    ∀ (p : Page) (trace : List Page), p.state.totalCards = N →
      0 ≤ p.state.currentIndex → p.state.currentIndex < N →
      runCalls Intent.run (waits.map (Intent.next, ·)) p = some trace →
      ∀ q, trace.getLast? = some q →
        q.state.currentIndex = (p.state.currentIndex + waits.length) % (N : Int) := by
  induction waits with
  | nil =>
    intro p trace _ _ _ h q hq
    simp [runCalls] at h
    subst h
    simp at hq
  | cons wait rest ih =>
    intro p trace hN h0 hlt h q hq
    cases ha : p.state.isAnimating with
    | true => simp [runCalls, ha] at h
    | false =>
      simp only [List.map_cons, runCalls, ha, Bool.false_eq_true, if_false,
        Option.map_eq_some'] at h
      obtain ⟨tail, htail, rfl⟩ := h
      have hnext : (nextSlide p).page.state.currentIndex
          = (p.state.currentIndex + 1) % (N : Int) := by
        rw [nextSlide_currentIndex p ha h0 (by omega), hN]
      have hN0 : (0 : Int) < N := by omega
      cases tail with
      | nil =>
        simp only [List.getLast?_singleton, Option.some.injEq] at hq
        subst hq
        cases rest with
        | nil =>
          simpa using hnext
        | cons w ws =>
          cases hb : (advance wait (Intent.run Intent.next p).page).state.isAnimating <;>
            simp [runCalls, hb] at htail
      | cons t ts =>
        rw [List.getLast?_cons_cons] at hq
        have hstep := ih (advance wait (Intent.run Intent.next p).page) (t :: ts)
          (by rw [advance_totalCards]; exact (goToSlide_totalCards _ p).trans hN)
          (by rw [advance_currentIndex]
              show 0 ≤ (nextSlide p).page.state.currentIndex
              rw [hnext]; exact Int.emod_nonneg _ (by omega))
          (by rw [advance_currentIndex]
              show (nextSlide p).page.state.currentIndex < N
              rw [hnext]; exact Int.emod_lt_of_pos _ hN0)
          htail q hq
        rw [hstep, advance_currentIndex]
        show ((nextSlide p).page.state.currentIndex + (rest.length : Int)) % (N : Int) = _
        rw [hnext, Int.emod_add_emod]
        congr 1
        simp only [List.length_cons]
        push_cast
        ring

/-! ## The ring invariant -/

/-- C1. With `N ≥ 1` slots, take any finite sequence of calls (`next()`,
`previous()`, and `goto(i)` as well), each made while `isAnimating` is false
and each followed by some waiting time. After every call `currentIndex` lies
in `[0, N)`, in `src/carousel.js` and in the module variant alike. Such runs
exist: on a page that has its card list and starts with `isAnimating` false,
waiting `ANIMATION_DURATION` or longer after each call lets the animation
timer expire, so every call of the sequence is made with `isAnimating` false. -/
theorem currentIndex_in_range_after_every_call (N : Nat) (h1 : 1 ≤ N) (p : Page)
    (hN : p.state.totalCards = N) (calls : List (Intent × Nat)) :
    (∀ trace, runCalls Intent.run calls p = some trace →
        ∀ q ∈ trace, 0 ≤ q.state.currentIndex ∧ q.state.currentIndex < N) ∧
    (∀ trace, runCalls Components.run calls p = some trace →
        ∀ q ∈ trace, 0 ≤ q.state.currentIndex ∧ q.state.currentIndex < N) ∧
    (p.state.isAnimating = false → p.elements.cards ≠ none →
        (∀ cw ∈ calls, CONFIG.ANIMATION_DURATION ≤ cw.2) →
        (runCalls Intent.run calls p).isSome = true ∧
          (runCalls Components.run calls p).isSome = true) := by
  refine ⟨fun trace h => runCalls_currentIndex_mem N h1 calls p trace hN h, ?_, ?_⟩
  · rw [Components.run_eq]
    exact fun trace h => runCalls_currentIndex_mem N h1 calls p trace hN h
  · intro ha hc hw
    rw [Components.run_eq]
    exact ⟨runCalls_isSome calls p ha hc hw, runCalls_isSome calls p ha hc hw⟩

/-- C1, at five cards: `previous()`, `next()`, `next()` spaced by 600, 750
and 600 time units. -/
theorem currentIndex_in_range_after_every_call_witness :
    (1 ≤ 5 ∧ (freshPage 5).state.totalCards = 5) ∧
    ((∀ trace,
        runCalls Intent.run [(.previous, 600), (.next, 750), (.next, 600)] (freshPage 5)
          = some trace →
        ∀ q ∈ trace, 0 ≤ q.state.currentIndex ∧ q.state.currentIndex < (5 : Nat)) ∧
    (∀ trace,
        runCalls Components.run [(.previous, 600), (.next, 750), (.next, 600)] (freshPage 5)
          = some trace →
        ∀ q ∈ trace, 0 ≤ q.state.currentIndex ∧ q.state.currentIndex < (5 : Nat)) ∧
    ((freshPage 5).state.isAnimating = false → (freshPage 5).elements.cards ≠ none →
        (∀ cw ∈ [(Intent.previous, 600), (Intent.next, 750), (Intent.next, 600)],
          CONFIG.ANIMATION_DURATION ≤ cw.2) →
        (runCalls Intent.run [(.previous, 600), (.next, 750), (.next, 600)]
          (freshPage 5)).isSome = true ∧
        (runCalls Components.run [(.previous, 600), (.next, 750), (.next, 600)]
          (freshPage 5)).isSome = true)) :=
  ⟨⟨by decide, rfl⟩,
    currentIndex_in_range_after_every_call 5 (by decide) (freshPage 5) rfl
      [(.previous, 600), (.next, 750), (.next, 600)]⟩

/-- C2. With `N ≥ 1` slots and `currentIndex = c` in `[0, N)`, `N` calls of
`next()`, each made while `isAnimating` is false, end on slot `c` again (in
both variants). Such a run exists whenever the page has its card list, starts
with `isAnimating` false and the calls are spaced by `ANIMATION_DURATION` or
more; its trace then has a last page, the one after the `N`-th call. -/
theorem next_N_times_returns_to_start (N : Nat) (h1 : 1 ≤ N) (p : Page)
    (hN : p.state.totalCards = N) (c : Int) (hc : p.state.currentIndex = c)
    (h0 : 0 ≤ c) (hlt : c < N) (waits : List Nat) (hlen : waits.length = N) :
    (∀ trace, runCalls Intent.run (waits.map (Intent.next, ·)) p = some trace →
        ∀ q, trace.getLast? = some q → q.state.currentIndex = c) ∧
    (∀ trace, runCalls Components.run (waits.map (Intent.next, ·)) p = some trace →
        ∀ q, trace.getLast? = some q → q.state.currentIndex = c) ∧
    (p.state.isAnimating = false → p.elements.cards ≠ none →
        (∀ w ∈ waits, CONFIG.ANIMATION_DURATION ≤ w) →
        ∃ trace q, runCalls Intent.run (waits.map (Intent.next, ·)) p = some trace ∧
          runCalls Components.run (waits.map (Intent.next, ·)) p = some trace ∧
          trace.getLast? = some q ∧ q.state.currentIndex = c) := by
  have key : ∀ trace, runCalls Intent.run (waits.map (Intent.next, ·)) p = some trace →
      ∀ q, trace.getLast? = some q → q.state.currentIndex = c := by
    intro trace h q hq
    rw [runCalls_next_last N h1 waits p trace hN (hc ▸ h0) (hc ▸ hlt) h q hq, hc, hlen,
      Int.add_emod_self, Int.emod_eq_of_lt h0 hlt]
  refine ⟨key, by rw [Components.run_eq]; exact key, ?_⟩
  intro ha hcards hw
  have hsome := runCalls_isSome (waits.map (Intent.next, ·)) p ha hcards (by
    intro cw hcw
    obtain ⟨w, hwmem, rfl⟩ := List.mem_map.mp hcw
    exact hw w hwmem)
  obtain ⟨trace, htrace⟩ := Option.isSome_iff_exists.mp hsome
  have hne : trace ≠ [] := by
    rintro rfl
    cases waits with
    | nil => simp at hlen; omega
    | cons w ws =>
      cases hb : p.state.isAnimating <;> simp [runCalls, hb] at htrace
  obtain ⟨q, hq⟩ : ∃ q, trace.getLast? = some q :=
    ⟨trace.getLast hne, List.getLast?_eq_getLast _ hne⟩
  exact ⟨trace, q, htrace, by rw [Components.run_eq]; exact htrace, hq, key trace htrace q hq⟩

/-- C2, at three cards starting on slot 1: three calls of `next()`, 600 time
units apart, end on slot 1. -/
theorem next_N_times_returns_to_start_witness :
    (1 ≤ 3 ∧ (restingPage 3 1).state.totalCards = 3 ∧
      (restingPage 3 1).state.currentIndex = 1 ∧ (0 : Int) ≤ 1 ∧
      (1 : Int) < (3 : Nat) ∧ [600, 600, 600].length = 3) ∧
    ∃ trace q,
      runCalls Intent.run [(.next, 600), (.next, 600), (.next, 600)] (restingPage 3 1)
        = some trace ∧
      runCalls Components.run [(.next, 600), (.next, 600), (.next, 600)] (restingPage 3 1)
        = some trace ∧
      trace.getLast? = some q ∧ q.state.currentIndex = 1 :=
  ⟨⟨by decide, rfl, rfl, by decide, by decide, rfl⟩,
    (next_N_times_returns_to_start 3 (by decide) (restingPage 3 1) rfl 1 rfl (by decide)
      (by decide) [600, 600, 600] rfl).2.2 rfl (by decide) (by decide)⟩

/-! ## `goToSlide` -/

/-- C3, as the code has it. From any state with `isAnimating` false (any
`currentIndex`, any value of the click and wheel locks) and `N ≥ 1` slots:
`goto(-1)` sets `currentIndex` to `N - 1`, `goto(N)` sets it to `0`, and
`goto(k)` for `0 ≤ k < N` sets it to `k`; this holds for `goToSlide` of both
variants and for `HorseCarousel.goTo`. -/
theorem goto_from_idle (N : Nat) (h1 : 1 ≤ N) (p : Page) (hN : p.state.totalCards = N)
    (hidle : p.state.isAnimating = false) :
    ((goToSlide (-1) p).page.state.currentIndex = (N : Int) - 1 ∧
      (goToSlide N p).page.state.currentIndex = 0 ∧
      ∀ k : Int, 0 ≤ k → k < N → (goToSlide k p).page.state.currentIndex = k) ∧
    ((Components.goToSlide (-1) p).page.state.currentIndex = (N : Int) - 1 ∧
      (Components.goToSlide N p).page.state.currentIndex = 0 ∧
      ∀ k : Int, 0 ≤ k → k < N → (Components.goToSlide k p).page.state.currentIndex = k) ∧
    ((HorseCarousel.goTo (-1) p).page.state.currentIndex = (N : Int) - 1 ∧
      (HorseCarousel.goTo N p).page.state.currentIndex = 0 ∧
      ∀ k : Int, 0 ≤ k → k < N → (HorseCarousel.goTo k p).page.state.currentIndex = k) := by
  have key : (goToSlide (-1) p).page.state.currentIndex = (N : Int) - 1 ∧
      (goToSlide N p).page.state.currentIndex = 0 ∧
      ∀ k : Int, 0 ≤ k → k < N → (goToSlide k p).page.state.currentIndex = k := by
    refine ⟨?_, ?_, ?_⟩
    · rw [goToSlide_currentIndex _ p hidle, hN]; simp
    · rw [goToSlide_currentIndex _ p hidle, hN]
      split_ifs <;> omega
    · intro k hk0 hkN
      rw [goToSlide_currentIndex _ p hidle, hN]
      split_ifs <;> omega
  exact ⟨key, key, key⟩

/-- C3, at five cards resting on slot 2. -/
theorem goto_from_idle_witness :
    (1 ≤ 5 ∧ (restingPage 5 2).state.totalCards = 5 ∧
      (restingPage 5 2).state.isAnimating = false) ∧
    (goToSlide (-1) (restingPage 5 2)).page.state.currentIndex = 4 ∧
    (goToSlide 5 (restingPage 5 2)).page.state.currentIndex = 0 ∧
    (goToSlide 3 (restingPage 5 2)).page.state.currentIndex = 3 :=
  ⟨⟨by decide, rfl, rfl⟩,
    (goto_from_idle 5 (by decide) (restingPage 5 2) rfl rfl).1.1,
    (goto_from_idle 5 (by decide) (restingPage 5 2) rfl rfl).1.2.1,
    (goto_from_idle 5 (by decide) (restingPage 5 2) rfl rfl).1.2.2 3 (by decide) (by decide)⟩

/-- C3 as stated fails while a transition runs: with five cards, after
`goToSlide(2)` from the fresh page (`isAnimating` now true), `goto(-1)`
leaves `currentIndex` at 2 instead of setting it to 4, `goto(5)` leaves it at
2 instead of 0, and `goto(3)` leaves it at 2 instead of 3. -/
theorem goto_while_animating_counterexample :
    (goToSlide 2 (freshPage 5)).page.state.totalCards = 5 ∧
    (goToSlide 2 (freshPage 5)).page.state.isAnimating = true ∧
    (goToSlide (-1) (goToSlide 2 (freshPage 5)).page).page.state.currentIndex = 2 ∧
    (goToSlide (-1) (goToSlide 2 (freshPage 5)).page).page.state.currentIndex ≠ 5 - 1 ∧
    (goToSlide 5 (goToSlide 2 (freshPage 5)).page).page.state.currentIndex ≠ 0 ∧
    (goToSlide 3 (goToSlide 2 (freshPage 5)).page).page.state.currentIndex ≠ 3 ∧
    (HorseCarousel.goTo (-1) (goToSlide 2 (freshPage 5)).page).page.state.currentIndex ≠ 5 - 1 ∧
    (Components.goToSlide (-1) (goToSlide 2 (freshPage 5)).page).page.state.currentIndex
      ≠ 5 - 1 := by
  decide

/-- C4. With `isAnimating` false and `N ≥ 1` slots, `goToSlide(i)` accepts
every integer `i` and stores the single-step wrap of it: `N - 1` for every
`i < 0`, `0` for every `i ≥ N`, and `i` itself for `0 ≤ i < N`; the stored
index is always in `[0, N)`. No index is rejected: the call always enters
the transition, and an error escapes only when the card list is missing,
whatever `i` is. For `N = 5`, `goto(-3)` gives 4 and `goto(7)` gives 0, where
reduction modulo 5 would give 2 both times. -/
theorem goToSlide_single_step_wrap (N : Nat) (h1 : 1 ≤ N) (p : Page)
    (hN : p.state.totalCards = N) (hidle : p.state.isAnimating = false) (i : Int) :
    (i < 0 → (goToSlide i p).page.state.currentIndex = (N : Int) - 1) ∧
    ((N : Int) ≤ i → (goToSlide i p).page.state.currentIndex = 0) ∧
    (0 ≤ i → i < N → (goToSlide i p).page.state.currentIndex = i) ∧
    (0 ≤ (goToSlide i p).page.state.currentIndex ∧
      (goToSlide i p).page.state.currentIndex < N) ∧
    (goToSlide i p).page.state.isAnimating = true ∧
    ((goToSlide i p).threw = true ↔ p.elements.cards = none) ∧
    (N = 5 →
      (goToSlide (-3) p).page.state.currentIndex = 4 ∧ (-3 : Int) % 5 = 2 ∧
      (goToSlide 7 p).page.state.currentIndex = 0 ∧ (7 : Int) % 5 = 2) := by
  refine ⟨?_, ?_, ?_, ?_, goToSlide_isAnimating i p hidle, ?_, ?_⟩
  · intro hi
    rw [goToSlide_currentIndex _ p hidle, hN, if_pos hi]
  · intro hi
    rw [goToSlide_currentIndex _ p hidle, hN]
    split_ifs <;> omega
  · intro hi0 hiN
    rw [goToSlide_currentIndex _ p hidle, hN]
    split_ifs <;> omega
  · rw [← hN]
    exact goToSlide_currentIndex_mem i p hidle (by omega)
  · rw [goToSlide_threw]
    exact ⟨fun h => h.2, fun h => ⟨hidle, h⟩⟩
  · intro h5
    subst h5
    rw [goToSlide_currentIndex _ p hidle, goToSlide_currentIndex _ p hidle, hN]
    decide

/-- C4, at five cards resting on slot 2, for `i = -3`. -/
theorem goToSlide_single_step_wrap_witness :
    (1 ≤ 5 ∧ (restingPage 5 2).state.totalCards = 5 ∧
      (restingPage 5 2).state.isAnimating = false) ∧
    (goToSlide (-3) (restingPage 5 2)).page.state.currentIndex = ((5 : Nat) : Int) - 1 ∧
    (goToSlide (-3) (restingPage 5 2)).threw = false :=
  ⟨⟨by decide, rfl, rfl⟩,
    (goToSlide_single_step_wrap 5 (by decide) (restingPage 5 2) rfl rfl (-3)).1 (by decide),
    by decide⟩

/-- C5. While `isAnimating` is true, `next()`, `previous()` and `goto(i)` for
every integer `i` return the page exactly as it was: `currentIndex`,
`totalCards`, `isAnimating`, both locks, the timer queue and the recorded
frames are unchanged (nothing is rendered, no timer is started), and no error
escapes. This holds in both variants. -/
theorem intents_dropped_while_animating (p : Page) (h : p.state.isAnimating = true) :
    (nextSlide p = ⟨p, false⟩ ∧ prevSlide p = ⟨p, false⟩ ∧
      ∀ i : Int, goToSlide i p = ⟨p, false⟩) ∧
    (Components.nextSlide p = ⟨p, false⟩ ∧ Components.prevSlide p = ⟨p, false⟩ ∧
      ∀ i : Int, Components.goToSlide i p = ⟨p, false⟩) :=
  ⟨⟨goToSlide_of_animating _ p h, goToSlide_of_animating _ p h,
      fun i => goToSlide_of_animating i p h⟩,
    ⟨goToSlide_of_animating _ p h, goToSlide_of_animating _ p h,
      fun i => goToSlide_of_animating i p h⟩⟩

/-- C5, on the page reached by `goToSlide(2)` from the fresh five-card page,
where the transition is still running. -/
theorem intents_dropped_while_animating_witness :
    (goToSlide 2 (freshPage 5)).page.state.isAnimating = true ∧
    nextSlide (goToSlide 2 (freshPage 5)).page = ⟨(goToSlide 2 (freshPage 5)).page, false⟩ ∧
    prevSlide (goToSlide 2 (freshPage 5)).page = ⟨(goToSlide 2 (freshPage 5)).page, false⟩ ∧
    goToSlide 4 (goToSlide 2 (freshPage 5)).page = ⟨(goToSlide 2 (freshPage 5)).page, false⟩ :=
  ⟨rfl,
    (intents_dropped_while_animating (goToSlide 2 (freshPage 5)).page rfl).1.1,
    (intents_dropped_while_animating (goToSlide 2 (freshPage 5)).page rfl).1.2.1,
    (intents_dropped_while_animating (goToSlide 2 (freshPage 5)).page rfl).1.2.2 4⟩

/-! ## The animation lock -/

/-- C6, as the code has it. Take `N ≥ 2` slots, `currentIndex = c` in
`[0, N)`, the page at rest (`isAnimating` false, no release of the animation
lock pending) and its card list in place; `ANIMATION_DURATION` is 600. The
first `next()` moves the index to `(c + 1) mod N`, which differs from `c`, and
sets `isAnimating`. A second `next()` issued less than 600 time units later
finds `isAnimating` still true and returns the page unchanged, so the two
calls change `currentIndex` exactly once. A `next()` issued 600 time units or
more after the first finds `isAnimating` cleared by the timer and takes
effect again: it moves the index one slot further and sets `isAnimating`. -/
theorem next_twice_within_animation (N : Nat) (h2 : 2 ≤ N) (p : Page)
    (hN : p.state.totalCards = N) (c : Int) (hc : p.state.currentIndex = c)
    (h0 : 0 ≤ c) (hlt : c < N) (hidle : p.state.isAnimating = false)
    (hclean : ∀ x ∈ p.timers, x.action ≠ .clearAnimating)
    (hcards : p.elements.cards ≠ none) :
    CONFIG.ANIMATION_DURATION = 600 ∧
    (nextSlide p).page.state.currentIndex = (c + 1) % (N : Int) ∧
    (nextSlide p).page.state.currentIndex ≠ c ∧
    (nextSlide p).page.state.isAnimating = true ∧
    (∀ dt, dt < CONFIG.ANIMATION_DURATION →
      (advance dt (nextSlide p).page).state.isAnimating = true ∧
      nextSlide (advance dt (nextSlide p).page) = ⟨advance dt (nextSlide p).page, false⟩ ∧
      (nextSlide (advance dt (nextSlide p).page)).page.state.currentIndex
        = (nextSlide p).page.state.currentIndex) ∧
    (∀ dt, CONFIG.ANIMATION_DURATION ≤ dt →
      (advance dt (nextSlide p).page).state.isAnimating = false ∧
      (nextSlide (advance dt (nextSlide p).page)).page.state.currentIndex
        = (c + 2) % (N : Int) ∧
      (nextSlide (advance dt (nextSlide p).page)).page.state.currentIndex
        ≠ (nextSlide p).page.state.currentIndex ∧
      (nextSlide (advance dt (nextSlide p).page)).page.state.isAnimating = true) := by
  have hfirst : (nextSlide p).page.state.currentIndex = (c + 1) % (N : Int) := by
    rw [nextSlide_currentIndex p hidle (hc ▸ h0) (by rw [hc, hN]; exact hlt), hc, hN]
  have hfirst_if : (nextSlide p).page.state.currentIndex = if c + 1 ≥ (N : Int) then 0 else c + 1 := by
    unfold nextSlide
    rw [goToSlide_currentIndex _ p hidle, hN, hc]
    split_ifs <;> omega
  have hN0 : (0 : Int) < N := by omega
  have hr0 : 0 ≤ (nextSlide p).page.state.currentIndex := by
    rw [hfirst]; exact Int.emod_nonneg _ (by omega)
  have hrN : (nextSlide p).page.state.currentIndex < N := by
    rw [hfirst]; exact Int.emod_lt_of_pos _ hN0
  refine ⟨rfl, hfirst, ?_, goToSlide_isAnimating _ p hidle, ?_, ?_⟩
  · rw [hfirst_if]
    split_ifs <;> omega
  · intro dt hdt
    have hbusy : (advance dt (nextSlide p).page).state.isAnimating = true :=
      advance_goToSlide_isAnimating_before (p.state.currentIndex + 1) p dt hidle hclean hdt
    refine ⟨hbusy, goToSlide_of_animating _ _ hbusy, ?_⟩
    have hsame : nextSlide (advance dt (nextSlide p).page)
        = ⟨advance dt (nextSlide p).page, false⟩ := goToSlide_of_animating _ _ hbusy
    rw [hsame, advance_currentIndex]
  · intro dt hdt
    have hfree : (advance dt (nextSlide p).page).state.isAnimating = false :=
      advance_goToSlide_isAnimating (p.state.currentIndex + 1) p dt hidle hcards hdt
    have htot : (advance dt (nextSlide p).page).state.totalCards = N := by
      rw [advance_totalCards]; exact (goToSlide_totalCards _ p).trans hN
    have hidx : (advance dt (nextSlide p).page).state.currentIndex
        = (nextSlide p).page.state.currentIndex := advance_currentIndex dt _
    have hsecond := nextSlide_currentIndex (advance dt (nextSlide p).page) hfree
      (by rw [hidx]; exact hr0) (by rw [hidx, htot]; exact hrN)
    have hsecond_if : (nextSlide (advance dt (nextSlide p).page)).page.state.currentIndex
        = if (nextSlide p).page.state.currentIndex + 1 ≥ (N : Int) then 0
          else (nextSlide p).page.state.currentIndex + 1 := by
      show (goToSlide _ (advance dt (nextSlide p).page)).page.state.currentIndex = _
      rw [goToSlide_currentIndex _ _ hfree, htot, hidx]
      split_ifs <;> omega
    refine ⟨hfree, ?_, ?_, goToSlide_isAnimating _ _ hfree⟩
    · rw [hsecond, hidx, htot, hfirst, Int.emod_add_emod]
      congr 1
      ring
    · rw [hsecond_if]
      split_ifs <;> omega

/-- C6, at five cards from the fresh page: the first `next()` moves to slot
1, a second one 599 time units later is dropped, one issued 600 time units
after the first moves to slot 2. -/
theorem next_twice_within_animation_witness :
    (2 ≤ 5 ∧ (freshPage 5).state.totalCards = 5 ∧ (freshPage 5).state.currentIndex = 0 ∧
      (0 : Int) ≤ 0 ∧ (0 : Int) < (5 : Nat) ∧ (freshPage 5).state.isAnimating = false ∧
      (∀ x ∈ (freshPage 5).timers, x.action ≠ .clearAnimating) ∧
      (freshPage 5).elements.cards ≠ none) ∧
    (nextSlide (freshPage 5)).page.state.currentIndex ≠ 0 ∧
    nextSlide (advance 599 (nextSlide (freshPage 5)).page)
      = ⟨advance 599 (nextSlide (freshPage 5)).page, false⟩ ∧
    (nextSlide (advance 600 (nextSlide (freshPage 5)).page)).page.state.currentIndex
      ≠ (nextSlide (freshPage 5)).page.state.currentIndex :=
  ⟨⟨by decide, rfl, rfl, by decide, by decide, rfl, by decide, by decide⟩,
    (next_twice_within_animation 5 (by decide) (freshPage 5) rfl 0 rfl (by decide) (by decide)
      rfl (by decide) (by decide)).2.2.1,
    ((next_twice_within_animation 5 (by decide) (freshPage 5) rfl 0 rfl (by decide) (by decide)
      rfl (by decide) (by decide)).2.2.2.2.1 599 (by decide)).2.1,
    ((next_twice_within_animation 5 (by decide) (freshPage 5) rfl 0 rfl (by decide) (by decide)
      rfl (by decide) (by decide)).2.2.2.2.2 600 (by decide)).2.2.1⟩

/-- C6 as stated fails with a single card: from the fresh one-card page the
first `next()` sets `isAnimating` but stores the index it found, 0, and so
does a `next()` issued after the timer has expired; no call changes
`currentIndex`. -/
theorem next_single_card_counterexample :
    (freshPage 1).state.totalCards = 1 ∧
    (freshPage 1).state.isAnimating = false ∧
    (freshPage 1).state.currentIndex = 0 ∧
    (nextSlide (freshPage 1)).page.state.isAnimating = true ∧
    (nextSlide (freshPage 1)).page.state.currentIndex = 0 ∧
    (nextSlide (advance 100 (nextSlide (freshPage 1)).page)).page.state.currentIndex = 0 ∧
    (advance 600 (nextSlide (freshPage 1)).page).state.isAnimating = false ∧
    (nextSlide (advance 600 (nextSlide (freshPage 1)).page)).page.state.currentIndex = 0 := by
  decide

/-! ## One slot at a time -/

/-- C7. With `isAnimating` false, `N ≥ 1` slots and `currentIndex = c` in
`[0, N)`: `next()` always enters the transition and stores `(c + 1) mod N`,
`previous()` always enters it and stores `(c - 1 + N) mod N`, in both
variants. Spelled out, `next()` goes from `c` to `c + 1` and from the last
slot to slot 0; `previous()` goes from `c` to `c - 1` and from slot 0 to the
last slot. -/
theorem next_previous_move_one_slot (N : Nat) (_h1 : 1 ≤ N) (p : Page)
    (hN : p.state.totalCards = N) (c : Int) (hc : p.state.currentIndex = c)
    (h0 : 0 ≤ c) (hlt : c < N) (hidle : p.state.isAnimating = false) :
    ((nextSlide p).page.state.isAnimating = true ∧
      (nextSlide p).page.state.currentIndex = (c + 1) % (N : Int) ∧
      (prevSlide p).page.state.isAnimating = true ∧
      (prevSlide p).page.state.currentIndex = (c - 1 + N) % (N : Int)) ∧
    ((Components.nextSlide p).page.state.isAnimating = true ∧
      (Components.nextSlide p).page.state.currentIndex = (c + 1) % (N : Int) ∧
      (Components.prevSlide p).page.state.isAnimating = true ∧
      (Components.prevSlide p).page.state.currentIndex = (c - 1 + N) % (N : Int)) ∧
    ((nextSlide p).page.state.currentIndex = if c + 1 = N then 0 else c + 1) ∧
    ((prevSlide p).page.state.currentIndex = if c = 0 then (N : Int) - 1 else c - 1) := by
  have key : (nextSlide p).page.state.isAnimating = true ∧
      (nextSlide p).page.state.currentIndex = (c + 1) % (N : Int) ∧
      (prevSlide p).page.state.isAnimating = true ∧
      (prevSlide p).page.state.currentIndex = (c - 1 + N) % (N : Int) := by
    refine ⟨goToSlide_isAnimating _ p hidle, ?_, goToSlide_isAnimating _ p hidle, ?_⟩
    · rw [nextSlide_currentIndex p hidle (hc ▸ h0) (by rw [hc, hN]; exact hlt), hc, hN]
    · rw [prevSlide_currentIndex p hidle (hc ▸ h0) (by rw [hc, hN]; exact hlt), hc, hN]
  refine ⟨key, key, ?_, ?_⟩
  · unfold nextSlide
    rw [goToSlide_currentIndex _ p hidle, hN, hc]
    split_ifs <;> omega
  · unfold prevSlide
    rw [goToSlide_currentIndex _ p hidle, hN, hc]
    split_ifs <;> omega

/-- C7, at five cards resting on the last slot: `next()` wraps to slot 0 and
`previous()` goes to slot 3. -/
theorem next_previous_move_one_slot_witness :
    (1 ≤ 5 ∧ (restingPage 5 4).state.totalCards = 5 ∧
      (restingPage 5 4).state.currentIndex = 4 ∧ (0 : Int) ≤ 4 ∧ (4 : Int) < (5 : Nat) ∧
      (restingPage 5 4).state.isAnimating = false) ∧
    (nextSlide (restingPage 5 4)).page.state.isAnimating = true ∧
    (nextSlide (restingPage 5 4)).page.state.currentIndex = (4 + 1) % ((5 : Nat) : Int) ∧
    (prevSlide (restingPage 5 4)).page.state.isAnimating = true ∧
    (prevSlide (restingPage 5 4)).page.state.currentIndex = (4 - 1 + (5 : Nat)) % ((5 : Nat) : Int) :=
  ⟨⟨by decide, rfl, rfl, by decide, by decide, rfl⟩,
    (next_previous_move_one_slot 5 (by decide) (restingPage 5 4) rfl 4 rfl (by decide)
      (by decide) rfl).1⟩

/-! ## `goto` with the current index -/

/-- The dot listener drops a click on the dot of the current slide: the page
is returned as it was, in both variants and whatever `isAnimating` holds. -/
theorem dotClick_of_current (p : Page) (i : Nat) (hi : (i : Int) = p.state.currentIndex) :
    dotClick i p = ⟨p, false⟩ ∧ Components.dotClick i p = ⟨p, false⟩ := by
  have hdot : dotClick i p = ⟨p, false⟩ := by simp [dotClick, hi]
  exact ⟨hdot, hdot⟩

/-- With `isAnimating` false, the dot listener passes a click on any other
dot on to `goToSlide`. -/
theorem dotClick_of_other (p : Page) (j : Nat) (hidle : p.state.isAnimating = false)
    (hj : (j : Int) ≠ p.state.currentIndex) :
    dotClick j p = goToSlide j p ∧ Components.dotClick j p = Components.goToSlide j p := by
  have hother : dotClick j p = goToSlide j p := by simp [dotClick, hidle, hj]
  exact ⟨hother, hother⟩

/-- `goToSlide` has no test against the current index: on a page at rest
with its card list, called with any index, the current one included, it sets
`isAnimating`, renders one more frame, queues the release of the animation
lock and throws nothing. -/
theorem goToSlide_fires (index : Int) (p : Page) (n : Nat)
    (hidle : p.state.isAnimating = false) (hcards : p.elements.cards = some n) :
    (goToSlide index p).page.state.isAnimating = true ∧
    (∃ frame, (goToSlide index p).page.frames = frame :: p.frames) ∧
    (goToSlide index p).page.timers =
      p.timers ++ [⟨p.lastTimerId + 1, p.now + CONFIG.ANIMATION_DURATION, .clearAnimating⟩] ∧
    (goToSlide index p).threw = false := by
  refine ⟨goToSlide_isAnimating index p hidle, ?_,
    goToSlide_timers index p hidle (by simp [hcards]), ?_⟩
  · simp [goToSlide, positionCards, setTimeout, hidle, hcards]
  · cases h : (goToSlide index p).threw with
    | false => rfl
    | true =>
      have hnone := ((goToSlide_threw index p).mp h).2
      rw [hcards] at hnone
      cases hnone

/-- Called with the current index of the ring, `goToSlide` stores that
index again. -/
theorem goToSlide_of_current (p : Page) (i : Nat) (hidle : p.state.isAnimating = false)
    (hi : (i : Int) = p.state.currentIndex) (hlt : i < p.state.totalCards) :
    (goToSlide i p).page.state.currentIndex = p.state.currentIndex := by
  rw [goToSlide_currentIndex _ p hidle]
  split_ifs <;> omega

/-- C8, the code at the failing input. Five cards at rest on slot 2. A click
on dot 2 returns the page unchanged, in both variants: the dot listener
tests `i !== state.currentIndex`. The public entry point does not:
`HorseCarousel.goTo(2)`, that is `goToSlide(2)`, and the module's
`goToSlide(2)` keep `currentIndex` at 2 and yet enter the transition; they
set `isAnimating`, render a frame and queue the release of the animation
lock 600 later. Until then `next()` and `previous()` are dropped, so a
`goto` that moves nowhere blocks navigation for 600 time units. -/
theorem goTo_current_index_fires_transition :
    ((restingPage 5 2).state = ⟨2, 5, false, none, none⟩ ∧
      (restingPage 5 2).frames = [] ∧ (restingPage 5 2).timers = []) ∧
    (dotClick 2 (restingPage 5 2) = ⟨restingPage 5 2, false⟩ ∧
      Components.dotClick 2 (restingPage 5 2) = ⟨restingPage 5 2, false⟩) ∧
    ((HorseCarousel.goTo 2 (restingPage 5 2)).page.state = ⟨2, 5, true, none, none⟩ ∧
      (HorseCarousel.goTo 2 (restingPage 5 2)).page.frames.length = 1 ∧
      (HorseCarousel.goTo 2 (restingPage 5 2)).page.timers = [⟨1, 600, .clearAnimating⟩]) ∧
    ((goToSlide 2 (restingPage 5 2)).page.state = ⟨2, 5, true, none, none⟩ ∧
      (goToSlide 2 (restingPage 5 2)).page.frames.length = 1 ∧
      (goToSlide 2 (restingPage 5 2)).page.timers = [⟨1, 600, .clearAnimating⟩]) ∧
    ((Components.goToSlide 2 (restingPage 5 2)).page.state = ⟨2, 5, true, none, none⟩ ∧
      (Components.goToSlide 2 (restingPage 5 2)).page.frames.length = 1 ∧
      (Components.goToSlide 2 (restingPage 5 2)).page.timers = [⟨1, 600, .clearAnimating⟩]) ∧
    ((nextSlide (HorseCarousel.goTo 2 (restingPage 5 2)).page).page.state.currentIndex = 2 ∧
      (prevSlide (HorseCarousel.goTo 2 (restingPage 5 2)).page).page.state.currentIndex = 2 ∧
      (nextSlide (advance 599 (HorseCarousel.goTo 2 (restingPage 5 2)).page)).page.state.currentIndex
        = 2 ∧
      (nextSlide (advance 600 (HorseCarousel.goTo 2 (restingPage 5 2)).page)).page.state.currentIndex
        = 3) ∧
    ((nextSlide (dotClick 2 (restingPage 5 2)).page).page.state.currentIndex = 3) := by
  decide

/-! ## Centred offsets -/

/-- C9. For `N ≥ 1` slots, `currentIndex = c` and a slot `k`, both in
`[0, N)`, the offset `positionCards` computes (`k - c`, less `N` when above
`N / 2`, plus `N` when below `-N / 2`) lies in `[-N / 2, N / 2]`, in both
variants; for `N = 5` it lies in `[-2, 2]`, and for `N = 5`, `c = 2` slot 4
gets `+2`. -/
theorem cardOffset_centred (N : Nat) (_h1 : 1 ≤ N) (c k : Int) (hc0 : 0 ≤ c) (hcN : c < N)
    (hk0 : 0 ≤ k) (hkN : k < N) :
    (-(N : ℚ) / 2 ≤ (cardOffset k c N : ℚ) ∧ (cardOffset k c N : ℚ) ≤ (N : ℚ) / 2) ∧
    (-(N : ℚ) / 2 ≤ (Components.cardOffset k c N : ℚ) ∧
      (Components.cardOffset k c N : ℚ) ≤ (N : ℚ) / 2) ∧
    (N = 5 → -2 ≤ cardOffset k c N ∧ cardOffset k c N ≤ 2) ∧
    (N = 5 → -2 ≤ Components.cardOffset k c N ∧ Components.cardOffset k c N ≤ 2) ∧
    cardOffset 4 2 5 = 2 ∧ Components.cardOffset 4 2 5 = 2 := by
  obtain ⟨hlo, hhi⟩ := cardOffset_two_mul_bounds N c k hc0 hcN hk0 hkN
  have hloq : -(N : ℚ) ≤ 2 * (cardOffset k c N : ℚ) := by exact_mod_cast hlo
  have hhiq : 2 * (cardOffset k c N : ℚ) ≤ (N : ℚ) := by exact_mod_cast hhi
  have key : -(N : ℚ) / 2 ≤ (cardOffset k c N : ℚ) ∧ (cardOffset k c N : ℚ) ≤ (N : ℚ) / 2 :=
    ⟨by linarith, by linarith⟩
  have five : N = 5 → -2 ≤ cardOffset k c N ∧ cardOffset k c N ≤ 2 := by
    intro h5
    subst h5
    constructor <;> omega
  exact ⟨key, key, five, five, by decide, by decide⟩

/-- C9, at five cards with `currentIndex = 2` and slot 4. -/
theorem cardOffset_centred_witness :
    (1 ≤ 5 ∧ (0 : Int) ≤ 2 ∧ (2 : Int) < (5 : Nat) ∧ (0 : Int) ≤ 4 ∧ (4 : Int) < (5 : Nat)) ∧
    (-((5 : Nat) : ℚ) / 2 ≤ (cardOffset 4 2 5 : ℚ) ∧
      (cardOffset 4 2 5 : ℚ) ≤ ((5 : Nat) : ℚ) / 2) ∧
    (-2 ≤ cardOffset 4 2 5 ∧ cardOffset 4 2 5 ≤ 2) :=
  ⟨⟨by decide, by decide, by decide, by decide, by decide⟩,
    (cardOffset_centred 5 (by decide) 2 4 (by decide) (by decide) (by decide) (by decide)).1,
    (cardOffset_centred 5 (by decide) 2 4 (by decide) (by decide) (by decide) (by decide)).2.2.1
      rfl⟩

/-- C10. For `N ≥ 1` slots and `c`, `k` in `[0, N)`, the offset `o` of slot
`k` is the signed shortest way round the ring from the current slot: `o` is
congruent to `k - c` modulo `N`, its absolute value is the smaller of
`(k - c) mod N` and `(c - k) mod N`, and no integer congruent to `k - c`
modulo `N` has a smaller absolute value. Both variants compute the same
offset. -/
theorem cardOffset_shortest_path (N : Nat) (_h1 : 1 ≤ N) (c k : Int) (hc0 : 0 ≤ c)
    (hcN : c < N) (hk0 : 0 ≤ k) (hkN : k < N) :
    cardOffset k c N ≡ k - c [ZMOD N] ∧
    |cardOffset k c N| = min ((k - c) % (N : Int)) ((c - k) % (N : Int)) ∧
    (∀ o : Int, o ≡ k - c [ZMOD N] → |cardOffset k c N| ≤ |o|) ∧
    Components.cardOffset k c N = cardOffset k c N := by
  have hcong : cardOffset k c N ≡ k - c [ZMOD N] := by
    rw [Int.modEq_iff_dvd]
    rcases cardOffset_cases N c k with ⟨h, _, _⟩ | ⟨h, _⟩ | ⟨h, _⟩ <;> rw [h]
    · exact ⟨0, by ring⟩
    · exact ⟨1, by ring⟩
    · exact ⟨-1, by ring⟩
  obtain ⟨hlo, hhi⟩ := cardOffset_two_mul_bounds N c k hc0 hcN hk0 hkN
  refine ⟨hcong, ?_, ?_, rfl⟩
  · have hmod : (k - c) % (N : Int) = if 0 ≤ k - c then k - c else k - c + N := by
      split_ifs with h
      · exact Int.emod_eq_of_lt h (by omega)
      · rw [← Int.add_emod_self, Int.emod_eq_of_lt (by omega) (by omega)]
    have hmod' : (c - k) % (N : Int) = if 0 ≤ c - k then c - k else c - k + N := by
      split_ifs with h
      · exact Int.emod_eq_of_lt h (by omega)
      · rw [← Int.add_emod_self, Int.emod_eq_of_lt (by omega) (by omega)]
    rw [hmod, hmod', min_def]
    rcases cardOffset_cases N c k with ⟨h, _, _⟩ | ⟨h, _⟩ | ⟨h, _⟩ <;>
      rw [h] <;>
      rcases abs_cases (cardOffset k c N) with ⟨ha, _⟩ | ⟨ha, _⟩ <;>
      rw [h] at ha <;> rw [ha] <;> split_ifs <;> omega
  · intro o ho
    have hdvd : (N : Int) ∣ o - cardOffset k c N := by
      have := (hcong.trans ho.symm)
      exact (Int.modEq_iff_dvd.mp this)
    obtain ⟨t, ht⟩ := hdvd
    have ho' : o = cardOffset k c N + N * t := by omega
    rcases lt_trichotomy t 0 with hneg | hzero | hpos
    · have hmul : (N : Int) * t ≤ -(N : Int) := by nlinarith
      rcases abs_cases (cardOffset k c N) with ⟨ha, _⟩ | ⟨ha, _⟩ <;>
        rcases abs_cases o with ⟨hb, _⟩ | ⟨hb, _⟩ <;> rw [ha, hb] <;> omega
    · subst hzero
      simp only [mul_zero, add_zero] at ho'
      rw [ho']
    · have hmul : (N : Int) ≤ (N : Int) * t := by nlinarith
      rcases abs_cases (cardOffset k c N) with ⟨ha, _⟩ | ⟨ha, _⟩ <;>
        rcases abs_cases o with ⟨hb, _⟩ | ⟨hb, _⟩ <;> rw [ha, hb] <;> omega

/-- C10, at five cards with `currentIndex = 0` and slot 4, whose offset is
`-1`. -/
theorem cardOffset_shortest_path_witness :
    (1 ≤ 5 ∧ (0 : Int) ≤ 0 ∧ (0 : Int) < (5 : Nat) ∧ (0 : Int) ≤ 4 ∧ (4 : Int) < (5 : Nat)) ∧
    cardOffset 4 0 5 = -1 ∧
    cardOffset 4 0 5 ≡ 4 - 0 [ZMOD ((5 : Nat) : Int)] ∧
    |cardOffset 4 0 5| = min ((4 - 0) % ((5 : Nat) : Int)) ((0 - 4) % ((5 : Nat) : Int)) :=
  ⟨⟨by decide, by decide, by decide, by decide, by decide⟩, by decide,
    (cardOffset_shortest_path 5 (by decide) 0 4 (by decide) (by decide) (by decide)
      (by decide)).1,
    (cardOffset_shortest_path 5 (by decide) 0 4 (by decide) (by decide) (by decide)
      (by decide)).2.1⟩

/-! ## Facts about rendering -/

theorem calculateCardPosition_zIndex (s : State) (offset : Int) :
    (calculateCardPosition s offset).zIndex = (s.totalCards : Int) - |offset| := by
  unfold calculateCardPosition
  simp only
  split_ifs <;> rfl

theorem calculateCardPosition_isActive (s : State) (offset : Int) :
    (calculateCardPosition s offset).isActive = decide (offset = 0) := by
  unfold calculateCardPosition
  simp only
  split_ifs with h0 <;> simp [h0]

theorem calculateCardPosition_hidden_right (s : State) (offset : Int) (h : 2 < offset) :
    calculateCardPosition s offset
      = ⟨.template 450 (-400) (-40) 0.6, 0, (s.totalCards : Int) - |offset|, false⟩ := by
  unfold calculateCardPosition
  rw [if_neg (by omega), if_neg (by omega), if_neg (by omega), if_neg (by omega),
    if_neg (by omega)]
  simp [CONFIG, show 0 < offset by omega]

theorem calculateCardPosition_hidden_left (s : State) (offset : Int) (h : offset < -2) :
    calculateCardPosition s offset
      = ⟨.template (-450) (-400) 40 0.6, 0, (s.totalCards : Int) - |offset|, false⟩ := by
  unfold calculateCardPosition
  rw [if_neg (by omega), if_neg (by omega), if_neg (by omega), if_neg (by omega),
    if_neg (by omega)]
  simp [CONFIG, show ¬ 0 < offset by omega]

/-- Among the slots of the ring only the current one has offset 0. -/
theorem cardOffset_eq_zero_iff (N : Nat) (c k : Int) (hc0 : 0 ≤ c) (hcN : c < N)
    (hk0 : 0 ≤ k) (hkN : k < N) : cardOffset k c N = 0 ↔ k = c := by
  rcases cardOffset_cases N c k with ⟨h, _, _⟩ | ⟨h, _⟩ | ⟨h, _⟩ <;> rw [h] <;> omega

/-- The card positions of the latest frame, one by one. -/
theorem positionCards_card (p : Page) (n k : Nat) (h : p.elements.cards = some n)
    (hk : k < n) :
    (positionCards p).page.card k =
      some (calculateCardPosition p.state
        (cardOffset k p.state.currentIndex p.state.totalCards)) := by
  simp [Page.card, positionCards, h, List.getElem?_range hk]

theorem positionCards_dot (p : Page) (n m k : Nat) (h : p.elements.cards = some n)
    (hd : p.elements.dots = some m) (hk : k < m) :
    (positionCards p).page.dot k = some (decide ((k : Int) = p.state.currentIndex)) := by
  simp [Page.dot, positionCards, updateIndicators, h, hd, List.getElem?_range hk]

/-- Exactly one index below `n` equals a given slot of `[0, n)`. -/
theorem countP_range_eq_one (n : Nat) (c : Int) (h0 : 0 ≤ c) (hlt : c < n) :
    (List.range n).countP (fun k : Nat => decide ((k : Int) = c)) = 1 := by
  have hcongr : (List.range n).countP (fun k : Nat => decide ((k : Int) = c))
      = (List.range n).countP (· == c.toNat) := by
    apply List.countP_congr
    intro k _
    simp only [decide_eq_true_eq, beq_iff_eq]
    omega
  rw [hcongr, ← List.count_eq_countP]
  exact List.count_eq_one_of_mem (List.nodup_range n) (List.mem_range.mpr (by omega))

theorem positionCards_activeCards (N : Nat) (p : Page) (hN : p.state.totalCards = N)
    (hcards : p.elements.cards = some N) (h0 : 0 ≤ p.state.currentIndex)
    (hlt : p.state.currentIndex < N) :
    (positionCards p).page.activeCards = 1 := by
  simp only [Page.activeCards, positionCards, hcards, List.head?_cons, List.countP_map]
  rw [← countP_range_eq_one N p.state.currentIndex h0 hlt]
  apply List.countP_congr
  intro k hk
  have hk' : k < N := List.mem_range.mp hk
  simp only [Function.comp_apply, calculateCardPosition_isActive, decide_eq_true_eq, hN]
  exact cardOffset_eq_zero_iff N _ k h0 hlt (by omega) (by omega)

theorem positionCards_activeDots (p : Page) (n m : Nat) (h : p.elements.cards = some n)
    (hd : p.elements.dots = some m) (h0 : 0 ≤ p.state.currentIndex)
    (hlt : p.state.currentIndex < m) :
    (positionCards p).page.activeDots = 1 := by
  simp only [Page.activeDots, positionCards, updateIndicators, h, hd, List.head?_cons,
    Option.map_some', List.count_eq_countP, List.countP_map]
  rw [← countP_range_eq_one m p.state.currentIndex h0 hlt]
  apply List.countP_congr
  intro k _
  simp

/-! ## Presets, stacking order, focal slot -/

/-- C11. `calculateCardPosition` picks the preset by the offset alone:
0 gives `CENTER` (opacity 1), +1 `FIRST_RIGHT` (0.8), -1 `FIRST_LEFT` (0.8),
+2 `SECOND_RIGHT` (0.5), -2 `SECOND_LEFT` (0.5); every offset above 2 gives
the hidden transform with translateX 450, translateZ -400, rotateY -40,
scale 0.6 and opacity 0, every offset below -2 its mirror image with
translateX -450 and rotateY 40. The module variant, given `CAROUSEL_CONFIG`,
returns the same transform and opacity. -/
theorem calculateCardPosition_presets (s : State) :
    ((calculateCardPosition s 0).transform = .css CONFIG.POSITIONS.CENTER.transform ∧
      (calculateCardPosition s 0).transform
        = .css "translateX(0) translateZ(0) rotateY(0deg) scale(1)" ∧
      (calculateCardPosition s 0).opacity = 1) ∧
    ((calculateCardPosition s 1).transform = .css CONFIG.POSITIONS.FIRST_RIGHT.transform ∧
      (calculateCardPosition s 1).transform
        = .css "translateX(200px) translateZ(-120px) rotateY(-20deg) scale(0.88)" ∧
      (calculateCardPosition s 1).opacity = 0.8) ∧
    ((calculateCardPosition s (-1)).transform = .css CONFIG.POSITIONS.FIRST_LEFT.transform ∧
      (calculateCardPosition s (-1)).transform
        = .css "translateX(-200px) translateZ(-120px) rotateY(20deg) scale(0.88)" ∧
      (calculateCardPosition s (-1)).opacity = 0.8) ∧
    ((calculateCardPosition s 2).transform = .css CONFIG.POSITIONS.SECOND_RIGHT.transform ∧
      (calculateCardPosition s 2).transform
        = .css "translateX(350px) translateZ(-250px) rotateY(-30deg) scale(0.75)" ∧
      (calculateCardPosition s 2).opacity = 0.5) ∧
    ((calculateCardPosition s (-2)).transform = .css CONFIG.POSITIONS.SECOND_LEFT.transform ∧
      (calculateCardPosition s (-2)).transform
        = .css "translateX(-350px) translateZ(-250px) rotateY(30deg) scale(0.75)" ∧
      (calculateCardPosition s (-2)).opacity = 0.5) ∧
    (∀ offset : Int, 2 < offset →
      (calculateCardPosition s offset).transform = .template 450 (-400) (-40) 0.6 ∧
      (calculateCardPosition s offset).opacity = 0) ∧
    (∀ offset : Int, offset < -2 →
      (calculateCardPosition s offset).transform = .template (-450) (-400) 40 0.6 ∧
      (calculateCardPosition s offset).opacity = 0) ∧
    (∀ (offset : Int) (totalCards : Nat),
      (Components.calculateCardPosition offset totalCards CAROUSEL_CONFIG.POSITIONS).transform
        = (calculateCardPosition s offset).transform ∧
      (Components.calculateCardPosition offset totalCards CAROUSEL_CONFIG.POSITIONS).opacity
        = (calculateCardPosition s offset).opacity) := by
  refine ⟨⟨rfl, rfl, rfl⟩, ⟨rfl, rfl, rfl⟩, ⟨rfl, rfl, rfl⟩, ⟨rfl, rfl, rfl⟩, ⟨rfl, rfl, rfl⟩,
    ?_, ?_, ?_⟩
  · intro offset h
    rw [calculateCardPosition_hidden_right s offset h]
    exact ⟨rfl, rfl⟩
  · intro offset h
    rw [calculateCardPosition_hidden_left s offset h]
    exact ⟨rfl, rfl⟩
  · intro offset totalCards
    unfold Components.calculateCardPosition calculateCardPosition
    simp only
    split_ifs <;> exact ⟨rfl, rfl⟩

/-- C12. The stacking order `calculateCardPosition` returns is
`N - |offset|` (both variants). Hence, with `N ≥ 1` cards and
`currentIndex = c` in `[0, N)`, a render gives the focal slot stacking order
`N` and every other slot a strictly smaller one, and offsets `o` and `-o`
get the same stacking order. -/
theorem stacking_order (N : Nat) (_h1 : 1 ≤ N) (p : Page) (hN : p.state.totalCards = N)
    (hcards : p.elements.cards = some N) (c : Int) (hc : p.state.currentIndex = c)
    (h0 : 0 ≤ c) (hlt : c < N) :
    (∀ offset : Int, (calculateCardPosition p.state offset).zIndex = (N : Int) - |offset|) ∧
    (∀ (offset : Int) (n : Nat),
      (Components.calculateCardPosition offset n CAROUSEL_CONFIG.POSITIONS).zIndex
        = (n : Int) - |offset|) ∧
    (∀ k : Nat, k < N → ∃ card,
      (positionCards p).page.card k = some card ∧
      (Components.positionCards p).page.card k = some card ∧
      card.zIndex = (N : Int) - |cardOffset k c N| ∧
      ((k : Int) = c → card.zIndex = N) ∧
      ((k : Int) ≠ c → card.zIndex < N)) ∧
    (∀ offset : Int, (calculateCardPosition p.state offset).zIndex
      = (calculateCardPosition p.state (-offset)).zIndex) := by
  refine ⟨fun offset => by rw [calculateCardPosition_zIndex, hN], ?_, ?_, ?_⟩
  · intro offset n
    exact calculateCardPosition_zIndex ⟨0, n, false, none, none⟩ offset
  · intro k hk
    refine ⟨_, positionCards_card p N k hcards hk, positionCards_card p N k hcards hk, ?_, ?_, ?_⟩
    · rw [calculateCardPosition_zIndex, hN, hc]
    · intro hkc
      rw [calculateCardPosition_zIndex, hN, hc,
        (cardOffset_eq_zero_iff N c k h0 hlt (by omega) (by omega)).mpr hkc]
      simp
    · intro hkc
      rw [calculateCardPosition_zIndex, hN, hc]
      have hne : cardOffset k c N ≠ 0 :=
        fun h => hkc ((cardOffset_eq_zero_iff N c k h0 hlt (by omega) (by omega)).mp h)
      have : 0 < |cardOffset k c N| := abs_pos.mpr hne
      omega
  · intro offset
    rw [calculateCardPosition_zIndex, calculateCardPosition_zIndex, abs_neg]

/-- C12, at five cards resting on slot 2: slot 2 gets stacking order 5, slot
4 (offset 2) and slot 0 (offset -2) both get 3. -/
theorem stacking_order_witness :
    (1 ≤ 5 ∧ (restingPage 5 2).state.totalCards = 5 ∧
      (restingPage 5 2).elements.cards = some 5 ∧ (restingPage 5 2).state.currentIndex = 2 ∧
      (0 : Int) ≤ 2 ∧ (2 : Int) < (5 : Nat)) ∧
    (∃ card, (positionCards (restingPage 5 2)).page.card 2 = some card ∧ card.zIndex = 5) ∧
    ((positionCards (restingPage 5 2)).page.card 4).map (fun card => card.zIndex) = some 3 ∧
    ((positionCards (restingPage 5 2)).page.card 0).map (fun card => card.zIndex) = some 3 :=
  ⟨⟨by decide, rfl, rfl, rfl, by decide, by decide⟩,
    (let ⟨card, hcard, _, _, hfocal, _⟩ :=
      (stacking_order 5 (by decide) (restingPage 5 2) rfl rfl 2 rfl (by decide)
        (by decide)).2.2.1 2 (by decide)
     ⟨card, hcard, hfocal rfl⟩),
    by decide, by decide⟩

/-- C13, as the code has it. `isActive` is true for offset 0 only. With
`N ≥ 1` cards and `currentIndex = c` in `[0, N)`, a render marks card `k`
active exactly when `k = c`, so exactly one card is active. When the page
has indicator dots (`elements.dots` is a list reaching slot `c`), the render
marks dot `k` active exactly when `k = c`: exactly one dot is active, the
one with the index of the active card. When `elements.dots` is `null`, the
render touches no dot. Both variants render alike. -/
theorem one_active_card_and_dot (N : Nat) (_h1 : 1 ≤ N) (p : Page)
    (hN : p.state.totalCards = N) (hcards : p.elements.cards = some N) (c : Int)
    (hc : p.state.currentIndex = c) (h0 : 0 ≤ c) (hlt : c < N) :
    (∀ (s : State) (offset : Int),
      (calculateCardPosition s offset).isActive = true ↔ offset = 0) ∧
    (∀ k : Nat, k < N →
      ((positionCards p).page.card k).map (fun card => card.isActive)
        = some (decide ((k : Int) = c))) ∧
    (positionCards p).page.activeCards = 1 ∧
    (∀ m : Nat, p.elements.dots = some m → c < m →
      (∀ k : Nat, k < m → (positionCards p).page.dot k = some (decide ((k : Int) = c))) ∧
      (positionCards p).page.activeDots = 1) ∧
    (p.elements.dots = none →
      (∀ k : Nat, (positionCards p).page.dot k = none) ∧
      (positionCards p).page.activeDots = 0) ∧
    Components.positionCards p = positionCards p := by
  refine ⟨?_, ?_, ?_, ?_, ?_, rfl⟩
  · intro s offset
    rw [calculateCardPosition_isActive]
    simp
  · intro k hk
    rw [positionCards_card p N k hcards hk, Option.map_some', calculateCardPosition_isActive,
      hN, hc]
    congr 1
    exact decide_eq_decide.mpr (cardOffset_eq_zero_iff N c k h0 hlt (by omega) (by omega))
  · exact positionCards_activeCards N p hN hcards (hc ▸ h0) (hc ▸ hlt)
  · intro m hd hm
    refine ⟨fun k hk => ?_, ?_⟩
    · rw [positionCards_dot p N m k hcards hd hk, hc]
    · exact positionCards_activeDots p N m hcards hd (hc ▸ h0) (hc ▸ hm)
  · intro hd
    constructor
    · intro k
      simp [Page.dot, positionCards, updateIndicators, hcards, hd]
    · simp [Page.activeDots, positionCards, updateIndicators, hcards, hd]

/-- C13, at five cards and five dots resting on slot 2. -/
theorem one_active_card_and_dot_witness :
    (1 ≤ 5 ∧ (restingPage 5 2).state.totalCards = 5 ∧
      (restingPage 5 2).elements.cards = some 5 ∧ (restingPage 5 2).state.currentIndex = 2 ∧
      (0 : Int) ≤ 2 ∧ (2 : Int) < (5 : Nat) ∧ (restingPage 5 2).elements.dots = some 5) ∧
    (positionCards (restingPage 5 2)).page.activeCards = 1 ∧
    (positionCards (restingPage 5 2)).page.activeDots = 1 ∧
    (positionCards (restingPage 5 2)).page.dot 2 = some true :=
  ⟨⟨by decide, rfl, rfl, rfl, by decide, by decide, rfl⟩,
    (one_active_card_and_dot 5 (by decide) (restingPage 5 2) rfl rfl 2 rfl (by decide)
      (by decide)).2.2.1,
    ((one_active_card_and_dot 5 (by decide) (restingPage 5 2) rfl rfl 2 rfl (by decide)
      (by decide)).2.2.2.1 5 rfl (by decide)).2,
    by decide⟩

/-- C13 as stated fails on a page without an indicators container: with
five cards at rest on slot 2 and `elements.dots` still `null`, a render and
a `next()` both mark one card active and no dot at all. -/
theorem no_dots_counterexample :
    (pageWithoutDots 5 2).state.totalCards = 5 ∧
    (pageWithoutDots 5 2).state.currentIndex = 2 ∧
    (pageWithoutDots 5 2).elements.dots = none ∧
    (positionCards (pageWithoutDots 5 2)).threw = false ∧
    (positionCards (pageWithoutDots 5 2)).page.activeCards = 1 ∧
    (positionCards (pageWithoutDots 5 2)).page.activeDots = 0 ∧
    (positionCards (pageWithoutDots 5 2)).page.dot 2 = none ∧
    (Components.positionCards (pageWithoutDots 5 2)).page.activeDots = 0 ∧
    (nextSlide (pageWithoutDots 5 2)).page.activeCards = 1 ∧
    (nextSlide (pageWithoutDots 5 2)).page.activeDots = 0 := by
  decide

/-! ## No cards at all -/

/-- C14, the code at the failing input. On the page as the script declares
it (`totalCards` 0, `currentIndex` 0, every element `null`),
`HorseCarousel.prev()` stores `currentIndex = -1` and `HorseCarousel.next()`
stores 0; both throw in `positionCards` after `isAnimating` has been set and
before the timer is started, so `isAnimating` stays true however long one
waits and every later call is dropped. With an empty card list instead of
`null`, `prev()` stores -1 without throwing. With one card, `next()` and
`prev()` store 0 and the offset of the single slot is 0. -/
theorem prev_without_cards_leaves_ring :
    (initialPage.state.totalCards = 0 ∧ initialPage.state.currentIndex = 0 ∧
      initialPage.state.isAnimating = false) ∧
    ((HorseCarousel.prev initialPage).page.state.currentIndex = -1 ∧
      (HorseCarousel.prev initialPage).threw = true ∧
      (HorseCarousel.prev initialPage).page.state.isAnimating = true ∧
      (HorseCarousel.prev initialPage).page.timers = []) ∧
    ((HorseCarousel.next initialPage).page.state.currentIndex = 0 ∧
      (HorseCarousel.next initialPage).threw = true ∧
      (HorseCarousel.next initialPage).page.state.isAnimating = true ∧
      (HorseCarousel.next initialPage).page.timers = [] ∧
      (advance 600 (HorseCarousel.next initialPage).page).state.isAnimating = true ∧
      (advance 86400000 (HorseCarousel.next initialPage).page).state.isAnimating = true) ∧
    ((HorseCarousel.prev emptyCarouselPage).page.state.currentIndex = -1 ∧
      (HorseCarousel.prev emptyCarouselPage).threw = false ∧
      (HorseCarousel.next emptyCarouselPage).page.state.currentIndex = 0) ∧
    ((HorseCarousel.next (freshPage 1)).page.state.currentIndex = 0 ∧
      (HorseCarousel.prev (freshPage 1)).page.state.currentIndex = 0 ∧
      (HorseCarousel.next (freshPage 1)).threw = false ∧
      (HorseCarousel.prev (freshPage 1)).threw = false ∧
      cardOffset 0 0 1 = 0) := by
  decide

/-! ## Flags and their timers -/

theorem runCallback_locked_self (s : State) (a : TimerAction) :
    (runCallback s a).locked a = false := by
  cases a <;> rfl

theorem runCallback_locked_of_ne (s : State) (a b : TimerAction) (h : b ≠ a) :
    (runCallback s a).locked b = s.locked b := by
  cases a <;> cases b <;> first | rfl | exact absurd rfl h

theorem foldl_runCallback_locked_false (l : List Timer) (s : State) (a : TimerAction)
    (h : s.locked a = false) :
    (l.foldl (fun s x => runCallback s x.action) s).locked a = false := by
  induction l generalizing s with
  | nil => exact h
  | cons x l ih =>
    rw [List.foldl_cons]
    apply ih
    by_cases hx : a = x.action
    · rw [hx]; exact runCallback_locked_self s x.action
    · rw [runCallback_locked_of_ne s x.action a hx]; exact h

theorem foldl_runCallback_locked_of_mem (l : List Timer) (s : State) (x : Timer)
    (hx : x ∈ l) :
    (l.foldl (fun s x => runCallback s x.action) s).locked x.action = false := by
  induction l generalizing s with
  | nil => cases hx
  | cons y l ih =>
    rw [List.foldl_cons]
    rcases List.mem_cons.mp hx with rfl | hmem
    · exact foldl_runCallback_locked_false _ _ _ (runCallback_locked_self s x.action)
    · exact ih _ hmem

theorem foldl_runCallback_locked_of_forall (l : List Timer) (s : State) (a : TimerAction)
    (h : ∀ x ∈ l, x.action ≠ a) :
    (l.foldl (fun s x => runCallback s x.action) s).locked a = s.locked a := by
  induction l generalizing s with
  | nil => rfl
  | cons y l ih =>
    rw [List.foldl_cons, ih _ (fun x hx => h x (List.mem_cons_of_mem _ hx))]
    exact runCallback_locked_of_ne s y.action a (fun hya => h y (List.mem_cons_self _ _) hya.symm)

/-- A release that has come due has run. -/
theorem advance_locked_of_due (dt : Nat) (p : Page) (x : Timer) (hx : x ∈ p.timers)
    (hd : x.due ≤ p.now + dt) : (advance dt p).state.locked x.action = false := by
  simp only [advance]
  apply foldl_runCallback_locked_of_mem
  rw [(List.perm_insertionSort _ _).mem_iff, List.mem_filter]
  exact ⟨hx, by simpa using hd⟩

/-- A flag none of whose releases has come due is left as it is. -/
theorem advance_locked_of_not_due (dt : Nat) (p : Page) (a : TimerAction)
    (h : ∀ x ∈ p.timers, x.action = a → p.now + dt < x.due) :
    (advance dt p).state.locked a = p.state.locked a := by
  simp only [advance]
  apply foldl_runCallback_locked_of_forall
  intro x hx ha
  rw [(List.perm_insertionSort _ _).mem_iff, List.mem_filter] at hx
  have := h x hx.1 ha
  have hle : x.due ≤ p.now + dt := by simpa using hx.2
  omega

theorem advance_pending (dt : Nat) (p : Page) (a : TimerAction) :
    (advance dt p).pending a = (p.pending a).filter (fun x => ¬ x.due ≤ p.now + dt) := by
  simp [Page.pending, advance, List.filter_filter, Bool.and_comm]

theorem mem_pending (p : Page) (a : TimerAction) (x : Timer) :
    x ∈ p.pending a ↔ x ∈ p.timers ∧ x.action = a := by
  simp [Page.pending, List.mem_filter]

/-- Letting time pass keeps flags and timer queue in agreement. -/
theorem advance_consistent (dt : Nat) (p : Page) (h : p.Consistent) :
    (advance dt p).Consistent := by
  intro a
  obtain ⟨hfree, hlen⟩ := h a
  rw [advance_pending]
  refine ⟨fun hlocked => ?_, le_trans (List.length_filter_le _ _) hlen⟩
  cases hp : p.pending a with
  | nil => rfl
  | cons x rest =>
    have hrest : rest = [] := by
      rw [hp] at hlen
      cases rest with
      | nil => rfl
      | cons y ys => simp at hlen
    subst hrest
    have hxmem : x ∈ p.timers ∧ x.action = a := (mem_pending p a x).mp (by rw [hp]; simp)
    by_cases hdue : x.due ≤ p.now + dt
    · simp [hdue]
    · exfalso
      have hsame : (advance dt p).state.locked a = p.state.locked a := by
        apply advance_locked_of_not_due
        intro y hy hya
        have hyx : y = x := by
          have : y ∈ p.pending a := (mem_pending p a y).mpr ⟨hy, hya⟩
          rw [hp] at this
          simpa using this
        rw [hyx]
        omega
      rw [hsame] at hlocked
      have := hfree hlocked
      rw [hp] at this
      cases this

/-- A page that takes one more timer, for a flag that was clear and is now
set, stays in agreement. -/
theorem consistent_of_timer_added (p q : Page) (x : Timer) (h : p.Consistent)
    (htimers : q.timers = p.timers ++ [x]) (hfree : p.state.locked x.action = false)
    (hset : q.state.locked x.action = true)
    (hother : ∀ b, b ≠ x.action → q.state.locked b = p.state.locked b) : q.Consistent := by
  intro a
  obtain ⟨hafree, hlen⟩ := h a
  have hpend : q.pending a = p.pending a ++ (if x.action = a then [x] else []) := by
    simp only [Page.pending, htimers, List.filter_append, List.filter_cons, List.filter_nil]
    split_ifs <;> simp_all
  by_cases hxa : x.action = a
  · subst hxa
    rw [hpend, hafree hfree]
    simp [hset]
  · rw [hpend, if_neg hxa, List.append_nil, hother a (fun h => hxa h.symm)]
    exact ⟨hafree, hlen⟩

/-- A page with the same timers, on which flags were at most set, stays in
agreement. -/
theorem consistent_of_same_timers (p q : Page) (h : p.Consistent)
    (htimers : q.timers = p.timers)
    (hflags : ∀ b, q.state.locked b = true ∨ q.state.locked b = p.state.locked b) :
    q.Consistent := by
  intro a
  obtain ⟨hafree, hlen⟩ := h a
  have hpend : q.pending a = p.pending a := by simp [Page.pending, htimers]
  rw [hpend]
  refine ⟨fun hq => ?_, hlen⟩
  rcases hflags a with ht | hsame
  · rw [ht] at hq; cases hq
  · exact hafree (hsame ▸ hq)

theorem goToSlide_locked_of_ne (index : Int) (p : Page) (b : TimerAction)
    (hb : b ≠ .clearAnimating) :
    (goToSlide index p).page.state.locked b = p.state.locked b := by
  cases hc : p.elements.cards <;> cases ha : p.state.isAnimating <;> cases b <;>
    first
    | exact absurd rfl hb
    | simp [goToSlide, positionCards, setTimeout, State.locked, ha, hc]

theorem goToSlide_consistent (index : Int) (p : Page) (h : p.Consistent) :
    (goToSlide index p).page.Consistent := by
  cases ha : p.state.isAnimating with
  | true => rw [goToSlide_of_animating index p ha]; exact h
  | false =>
    cases hc : p.elements.cards with
    | none =>
      apply consistent_of_same_timers p _ h
      · simp [goToSlide, positionCards, ha, hc]
      · intro b
        by_cases hb : b = .clearAnimating
        · left; rw [hb]; exact goToSlide_isAnimating index p ha
        · right; exact goToSlide_locked_of_ne index p b hb
    | some n =>
      apply consistent_of_timer_added p _
        ⟨p.lastTimerId + 1, p.now + CONFIG.ANIMATION_DURATION, .clearAnimating⟩ h
      · exact goToSlide_timers index p ha (by simp [hc])
      · exact ha
      · exact goToSlide_isAnimating index p ha
      · intro b hb
        exact goToSlide_locked_of_ne index p b hb

/-- Setting a debounce lock on a page where it was clear, together with its
release timer, keeps flags and timer queue in agreement. -/
theorem clickLock_consistent (p : Page) (delay : Nat) (h : p.Consistent)
    (hfree : truthy p.state.clickTimeout = false) :
    Page.Consistent
      { (setTimeout .clearClickTimeout delay p).1 with
        state := { (setTimeout .clearClickTimeout delay p).1.state with
          clickTimeout := some (setTimeout .clearClickTimeout delay p).2 } } := by
  apply consistent_of_timer_added p _ ⟨p.lastTimerId + 1, p.now + delay, .clearClickTimeout⟩ h
  · rfl
  · exact hfree
  · rfl
  · intro b hb
    cases b <;> first | rfl | exact absurd rfl hb

theorem wheelLock_consistent (p : Page) (delay : Nat) (h : p.Consistent)
    (hfree : truthy p.state.wheelTimeout = false) :
    Page.Consistent
      { (setTimeout .clearWheelTimeout delay p).1 with
        state := { (setTimeout .clearWheelTimeout delay p).1.state with
          wheelTimeout := some (setTimeout .clearWheelTimeout delay p).2 } } := by
  apply consistent_of_timer_added p _ ⟨p.lastTimerId + 1, p.now + delay, .clearWheelTimeout⟩ h
  · rfl
  · exact hfree
  · rfl
  · intro b hb
    cases b <;> first | rfl | exact absurd rfl hb

theorem nextBtnClick_consistent (p : Page) (h : p.Consistent) :
    (nextBtnClick p).page.Consistent := by
  unfold nextBtnClick
  cases hl : truthy p.state.clickTimeout with
  | true => simpa using h
  | false =>
    simp only [Bool.false_eq_true, if_false]
    cases ht : (nextSlide p).threw with
    | true => simpa using goToSlide_consistent _ p h
    | false =>
      simp only [Bool.false_eq_true, if_false]
      apply clickLock_consistent _ _ (goToSlide_consistent _ p h)
      exact (goToSlide_locked_of_ne _ p .clearClickTimeout (by decide)).trans hl

theorem prevBtnClick_consistent (p : Page) (h : p.Consistent) :
    (prevBtnClick p).page.Consistent := by
  unfold prevBtnClick
  cases hl : truthy p.state.clickTimeout with
  | true => simpa using h
  | false =>
    simp only [Bool.false_eq_true, if_false]
    cases ht : (prevSlide p).threw with
    | true => simpa using goToSlide_consistent _ p h
    | false =>
      simp only [Bool.false_eq_true, if_false]
      apply clickLock_consistent _ _ (goToSlide_consistent _ p h)
      exact (goToSlide_locked_of_ne _ p .clearClickTimeout (by decide)).trans hl

theorem wheel_consistent (carouselSection : Option Bool) (e : WheelEvent) (p : Page)
    (h : p.Consistent) : (wheel carouselSection e p).page.Consistent := by
  unfold wheel
  cases carouselSection with
  | none => exact h
  | some visible =>
    cases visible with
    | false => exact h
    | true =>
      simp only [Bool.not_true, Bool.false_eq_true, if_false]
      split_ifs with hnav hl hdir ht ht
      · exact h
      · exact goToSlide_consistent _ p h
      · apply wheelLock_consistent _ _ (goToSlide_consistent _ p h)
        have hfree : truthy p.state.wheelTimeout = false := by simpa using hl
        exact (goToSlide_locked_of_ne _ p .clearWheelTimeout (by decide)).trans hfree
      · exact goToSlide_consistent _ p h
      · apply wheelLock_consistent _ _ (goToSlide_consistent _ p h)
        have hfree : truthy p.state.wheelTimeout = false := by simpa using hl
        exact (goToSlide_locked_of_ne _ p .clearWheelTimeout (by decide)).trans hfree
      · exact h

theorem keydown_consistent (carouselSection : Option Bool) (key : String) (p : Page)
    (h : p.Consistent) : (keydown carouselSection key p).page.Consistent := by
  unfold keydown
  cases carouselSection with
  | none => exact h
  | some visible =>
    cases visible with
    | false => exact h
    | true =>
      simp only [Bool.not_true, Bool.false_eq_true, if_false]
      split_ifs
      · exact goToSlide_consistent _ p h
      · exact goToSlide_consistent _ p h
      · exact h

theorem touchend_consistent (x : Int) (t : TouchState) (p : Page) (h : p.Consistent) :
    (touchend x t p).2.page.Consistent := by
  unfold touchend
  simp only
  split_ifs
  all_goals first | exact h | exact goToSlide_consistent _ p h

theorem dotClick_consistent (i : Nat) (p : Page) (h : p.Consistent) :
    (dotClick i p).page.Consistent := by
  unfold dotClick
  split_ifs
  · exact goToSlide_consistent _ p h
  · exact h

/-- Every event keeps flags and timer queue in agreement. -/
theorem step_consistent (event : Event) (b : Browser) (h : b.page.Consistent) :
    (event.step b).page.Consistent := by
  cases event with
  | nextBtnClick => exact nextBtnClick_consistent b.page h
  | prevBtnClick => exact prevBtnClick_consistent b.page h
  | dotClick i => exact dotClick_consistent i b.page h
  | keydown carouselSection key => exact keydown_consistent carouselSection key b.page h
  | touchstart x y => exact h
  | touchmove x y => exact h
  | touchend x => exact touchend_consistent x b.touch b.page h
  | wheel carouselSection e => exact wheel_consistent carouselSection e b.page h
  | call intent =>
    obtain ⟨index, hrun⟩ := Intent.run_eq_goToSlide intent b.page
    show (intent.run b.page).page.Consistent
    rw [hrun]
    exact goToSlide_consistent index b.page h
  | elapse dt => exact advance_consistent dt b.page h

theorem runEvents_consistent (events : List Event) :
    ∀ b : Browser, b.page.Consistent → (runEvents events b).page.Consistent := by
  induction events with
  | nil => intro b h; exact h
  | cons event rest ih =>
    intro b h
    exact ih (event.step b) (step_consistent event b h)

theorem consistent_of_no_timers (p : Page) (h : p.timers = []) : p.Consistent := by
  intro a
  simp [Page.pending, h]

/-! ## Debounced channels -/

/-- C15. A click on the next or previous button while `clickTimeout` is set
returns the page exactly as it was, and so does any wheel event while
`wheelTimeout` is set: `currentIndex`, `isAnimating`, both locks and the
timer queue are unchanged, no error escapes. Consequently, from a page that
starts without timers, after any sequence of events (clicks, dot clicks,
keys, touches, wheel events, calls of the public object, time passing) at
most one release of the click lock and at most one release of the wheel lock
are pending. The locks are reached: one click on the fresh five-card page
sets `clickTimeout`, one horizontal wheel event sets `wheelTimeout`. -/
theorem locked_channel_drops_intent :
    (∀ p : Page, truthy p.state.clickTimeout = true →
      nextBtnClick p = ⟨p, false⟩ ∧ prevBtnClick p = ⟨p, false⟩) ∧
    (∀ (p : Page) (carouselSection : Option Bool) (e : WheelEvent),
      truthy p.state.wheelTimeout = true →
      (wheel carouselSection e p).page = p ∧ (wheel carouselSection e p).threw = false) ∧
    (∀ (b : Browser) (events : List Event), b.page.timers = [] →
      ((runEvents events b).page.pending .clearClickTimeout).length ≤ 1 ∧
      ((runEvents events b).page.pending .clearWheelTimeout).length ≤ 1) ∧
    (truthy (nextBtnClick (freshPage 5)).page.state.clickTimeout = true ∧
      truthy (wheel (some true) ⟨3, 1, false⟩ (freshPage 5)).page.state.wheelTimeout = true) := by
  refine ⟨?_, ?_, ?_, by decide⟩
  · intro p h
    simp [nextBtnClick, prevBtnClick, h]
  · intro p carouselSection e h
    unfold wheel
    cases carouselSection with
    | none => exact ⟨rfl, rfl⟩
    | some visible =>
      cases visible with
      | false => exact ⟨rfl, rfl⟩
      | true =>
        simp only [Bool.not_true, Bool.false_eq_true, if_false, h, if_true]
        split_ifs <;> exact ⟨rfl, rfl⟩
  · intro b events h
    have hcons := runEvents_consistent events b (consistent_of_no_timers b.page h)
    exact ⟨(hcons .clearClickTimeout).2, (hcons .clearWheelTimeout).2⟩

/-! ## The wheel channel -/

/-- C16, as the code has it. A wheel event that is not a navigation gesture
(`|deltaX| ≤ |deltaY|` and no shift key) passes through untouched: page
unchanged, no `preventDefault`, no lock. So does every wheel event while the
carousel section is absent or not visible. While the section is visible,
`preventDefault` is called if and only if `|deltaX| > |deltaY|` or the shift
key is held. Such a gesture, arriving with the wheel lock clear, is passed
to `next()` when `deltaX > 0` or the shift key is held with `deltaY > 0`,
and to `previous()` otherwise: index, `isAnimating`, frames and error flag
are those of that call, and unless it threw the wheel lock is set. The
module variant has the same listener. -/
theorem wheel_gesture (p : Page) (e : WheelEvent) :
    (¬ (|e.deltaX| > |e.deltaY| ∨ e.shiftKey = true) →
      ∀ carouselSection, wheel carouselSection e p = ⟨p, false, false⟩) ∧
    (wheel none e p = ⟨p, false, false⟩ ∧ wheel (some false) e p = ⟨p, false, false⟩) ∧
    ((wheel (some true) e p).defaultPrevented = true ↔
      (|e.deltaX| > |e.deltaY| ∨ e.shiftKey = true)) ∧
    ((|e.deltaX| > |e.deltaY| ∨ e.shiftKey = true) → truthy p.state.wheelTimeout = false →
      ((e.deltaX > 0 ∨ (e.shiftKey = true ∧ e.deltaY > 0)) →
        (wheel (some true) e p).page.state.currentIndex = (nextSlide p).page.state.currentIndex ∧
        (wheel (some true) e p).page.state.isAnimating = (nextSlide p).page.state.isAnimating ∧
        (wheel (some true) e p).page.frames = (nextSlide p).page.frames ∧
        (wheel (some true) e p).threw = (nextSlide p).threw ∧
        ((nextSlide p).threw = false →
          truthy (wheel (some true) e p).page.state.wheelTimeout = true)) ∧
      (¬ (e.deltaX > 0 ∨ (e.shiftKey = true ∧ e.deltaY > 0)) →
        (wheel (some true) e p).page.state.currentIndex = (prevSlide p).page.state.currentIndex ∧
        (wheel (some true) e p).page.state.isAnimating = (prevSlide p).page.state.isAnimating ∧
        (wheel (some true) e p).page.frames = (prevSlide p).page.frames ∧
        (wheel (some true) e p).threw = (prevSlide p).threw ∧
        ((prevSlide p).threw = false →
          truthy (wheel (some true) e p).page.state.wheelTimeout = true))) ∧
    Components.wheel = wheel := by
  refine ⟨?_, ⟨rfl, rfl⟩, ?_, ?_, rfl⟩
  · intro hnav carouselSection
    unfold wheel
    cases carouselSection with
    | none => rfl
    | some visible => cases visible <;> simp [hnav]
  · unfold wheel
    simp only [Bool.not_true, Bool.false_eq_true, if_false]
    split_ifs with hnav <;> simp [hnav]
  · intro hnav hfree
    unfold wheel
    simp only [Bool.not_true, Bool.false_eq_true, if_false, if_pos hnav, hfree]
    constructor
    · intro hdir
      rw [if_pos hdir]
      cases ht : (nextSlide p).threw <;> simp [setTimeout, truthy]
    · intro hdir
      rw [if_neg hdir]
      cases ht : (prevSlide p).threw <;> simp [setTimeout, truthy]

/-- C16 as stated fails while the carousel section is hidden or absent: the
wheel event with `deltaX = 3`, `deltaY = 1` and no shift key has
`|deltaX| > |deltaY|`, yet on the fresh five-card page it passes through
untouched (no `preventDefault`, no navigation, no lock); with the section
visible the same event is handled and moves to slot 1. -/
theorem hidden_section_wheel_counterexample :
    |(3 : ℚ)| > |(1 : ℚ)| ∧
    wheel (some false) ⟨3, 1, false⟩ (freshPage 5) = ⟨freshPage 5, false, false⟩ ∧
    wheel none ⟨3, 1, false⟩ (freshPage 5) = ⟨freshPage 5, false, false⟩ ∧
    Components.wheel (some false) ⟨3, 1, false⟩ (freshPage 5) = ⟨freshPage 5, false, false⟩ ∧
    (wheel (some true) ⟨3, 1, false⟩ (freshPage 5)).defaultPrevented = true ∧
    (wheel (some true) ⟨3, 1, false⟩ (freshPage 5)).page.state.currentIndex = 1 := by
  refine ⟨by norm_num, rfl, rfl, rfl, by decide, by decide⟩

/-! ## The touch channel -/

theorem touchmove_touchStart (x y : Int) (t : TouchState) :
    (touchmove x y t).touchStartX = t.touchStartX ∧
      (touchmove x y t).touchStartY = t.touchStartY := by
  unfold touchmove
  split_ifs <;> exact ⟨rfl, rfl⟩

/-- `touchmove` never sets `isSwiping`. -/
theorem touchmove_isSwiping_false (x y : Int) (t : TouchState) (h : t.isSwiping = false) :
    (touchmove x y t).isSwiping = false := by
  simp [touchmove, h]

theorem foldl_touchmove_touchStart (samples : List (Int × Int)) (t : TouchState) :
    (samples.foldl (fun t sample => touchmove sample.1 sample.2 t) t).touchStartX
        = t.touchStartX ∧
      (samples.foldl (fun t sample => touchmove sample.1 sample.2 t) t).touchStartY
        = t.touchStartY := by
  induction samples generalizing t with
  | nil => exact ⟨rfl, rfl⟩
  | cons sample rest ih =>
    rw [List.foldl_cons]
    obtain ⟨hx, hy⟩ := ih (touchmove sample.1 sample.2 t)
    obtain ⟨hx', hy'⟩ := touchmove_touchStart sample.1 sample.2 t
    exact ⟨hx.trans hx', hy.trans hy'⟩

theorem foldl_touchmove_isSwiping_false (samples : List (Int × Int)) (t : TouchState)
    (h : t.isSwiping = false) :
    (samples.foldl (fun t sample => touchmove sample.1 sample.2 t) t).isSwiping = false := by
  induction samples generalizing t with
  | nil => exact h
  | cons sample rest ih =>
    rw [List.foldl_cons]
    exact ih _ (touchmove_isSwiping_false _ _ t h)

/-- A sample that is more vertical than horizontal, measured from the
start point, leaves `isSwiping` false. -/
theorem touchmove_vertical (x y : Int) (t : TouchState)
    (h : |y - t.touchStartY| > |x - t.touchStartX|) : (touchmove x y t).isSwiping = false := by
  unfold touchmove
  cases hs : t.isSwiping <;> simp [hs, h]

/-- C17. Take a touch made of `touchstart`, any number of `touchmove`
samples and `touchend`. If at one of the samples the vertical displacement
from the start point exceeds the horizontal one, the touch triggers no
navigation, whatever the samples before and after it and wherever it ends:
`touchend` returns the page unchanged and `isSwiping` is false. `isSwiping`
is a one-way latch within the touch: neither `touchmove` nor `touchend`
ever turns it from false to true. The module variant behaves alike. -/
theorem vertical_sample_cancels_swipe (start sample : Int × Int)
    (before after : List (Int × Int))
    (hv : |sample.2 - start.2| > |sample.1 - start.1|) (xEnd : Int) (t : TouchState)
    (p : Page) :
    ((touchSequence start (before ++ sample :: after) xEnd t p).2 = ⟨p, false⟩ ∧
      (touchSequence start (before ++ sample :: after) xEnd t p).1.isSwiping = false) ∧
    (Components.touchSequence start (before ++ sample :: after) xEnd t p
      = touchSequence start (before ++ sample :: after) xEnd t p) ∧
    (∀ (x y : Int) (t : TouchState),
      (touchmove x y t).isSwiping = true → t.isSwiping = true) ∧
    (∀ (x : Int) (t : TouchState) (p : Page),
      (touchend x t p).1.isSwiping = true → t.isSwiping = true) := by
  have hlatched :
      ((before ++ sample :: after).foldl (fun t sample => touchmove sample.1 sample.2 t)
        (touchstart start.1 start.2 t)).isSwiping = false := by
    rw [List.foldl_append, List.foldl_cons]
    apply foldl_touchmove_isSwiping_false
    apply touchmove_vertical
    obtain ⟨hx, hy⟩ := foldl_touchmove_touchStart before (touchstart start.1 start.2 t)
    rw [hx, hy]
    exact hv
  refine ⟨?_, rfl, ?_, ?_⟩
  · have key : ∀ T : TouchState, T.isSwiping = false →
        (touchend xEnd T p).2 = ⟨p, false⟩ ∧ (touchend xEnd T p).1.isSwiping = false := by
      intro T hT
      simp [touchend, hT]
    exact key _ hlatched
  · intro x y t h
    cases hs : t.isSwiping with
    | true => rfl
    | false => rw [touchmove_isSwiping_false x y t hs] at h; exact h
  · intro x t p h
    cases hs : t.isSwiping with
    | true => rfl
    | false => simp [touchend, hs] at h

/-- C17, on the fresh five-card page: a touch from `(100, 0)` that first
strays to `(95, 10)`, ten down against five across, and then runs on to
`(40, 0)`, 60 to the left of the start, navigates nowhere, while the same
touch without the stray sample moves to slot 1. -/
theorem vertical_sample_cancels_swipe_witness :
    (|((95 : Int), (10 : Int)).2 - ((100 : Int), (0 : Int)).2|
        > |((95 : Int), (10 : Int)).1 - ((100 : Int), (0 : Int)).1| ∧
      (100 : Int) - 40 > CONFIG.SWIPE_THRESHOLD) ∧
    ((touchSequence (100, 0) ([] ++ (95, 10) :: [(40, 0)]) 40 ⟨0, 0, 0, false⟩ (freshPage 5)).2
        = ⟨freshPage 5, false⟩ ∧
      (touchSequence (100, 0) ([] ++ (95, 10) :: [(40, 0)]) 40 ⟨0, 0, 0, false⟩
        (freshPage 5)).1.isSwiping = false) ∧
    (touchSequence (100, 0) [(40, 0)] 40 ⟨0, 0, 0, false⟩ (freshPage 5)).2.page.state.currentIndex
      = 1 :=
  ⟨⟨by decide, by decide⟩,
    (vertical_sample_cancels_swipe (100, 0) (95, 10) [] [(40, 0)] (by decide) 40
      ⟨0, 0, 0, false⟩ (freshPage 5)).1,
    by decide⟩

/-! ## The keyboard channel -/

theorem goToSlide_withLocks (index : Int) (p : Page) (click wheel : Option Nat) :
    goToSlide index (p.withLocks click wheel)
      = ⟨(goToSlide index p).page.withLocks click wheel, (goToSlide index p).threw⟩ := by
  cases hc : p.elements.cards <;> cases ha : p.state.isAnimating <;>
    simp [goToSlide, positionCards, setTimeout, Page.withLocks, updateIndicators,
      calculateCardPosition, ha, hc]

theorem goToSlide_locks (index : Int) (p : Page) :
    (goToSlide index p).page.state.clickTimeout = p.state.clickTimeout ∧
      (goToSlide index p).page.state.wheelTimeout = p.state.wheelTimeout := by
  cases hc : p.elements.cards <;> cases ha : p.state.isAnimating <;>
    simp [goToSlide, positionCards, setTimeout, ha, hc]

/-- C18. With the carousel section present and visible, `ArrowRight` is
passed to `next()` and `ArrowLeft` to `previous()`, each after
`preventDefault`. With the section absent or not visible, and for every
other key, the page is returned unchanged and `preventDefault` is not
called. The listener has no lock of its own: it leaves `clickTimeout`,
`wheelTimeout` and their pending releases as they are, and what it does is
the same whatever the two locks hold. The module variant has the same
listener. -/
theorem keyboard_adapter (p : Page) :
    (keydown (some true) "ArrowRight" p = ⟨(nextSlide p).page, (nextSlide p).threw, true⟩ ∧
      keydown (some true) "ArrowLeft" p = ⟨(prevSlide p).page, (prevSlide p).threw, true⟩) ∧
    (∀ key : String,
      keydown none key p = ⟨p, false, false⟩ ∧ keydown (some false) key p = ⟨p, false, false⟩) ∧
    (∀ (carouselSection : Option Bool) (key : String),
      key ≠ "ArrowRight" → key ≠ "ArrowLeft" →
      keydown carouselSection key p = ⟨p, false, false⟩) ∧
    (∀ (carouselSection : Option Bool) (key : String),
      (keydown carouselSection key p).page.state.clickTimeout = p.state.clickTimeout ∧
      (keydown carouselSection key p).page.state.wheelTimeout = p.state.wheelTimeout ∧
      (keydown carouselSection key p).page.pending .clearClickTimeout
        = p.pending .clearClickTimeout ∧
      (keydown carouselSection key p).page.pending .clearWheelTimeout
        = p.pending .clearWheelTimeout) ∧
    (∀ (carouselSection : Option Bool) (key : String) (click wheel : Option Nat),
      keydown carouselSection key (p.withLocks click wheel) =
        ⟨(keydown carouselSection key p).page.withLocks click wheel,
          (keydown carouselSection key p).threw,
          (keydown carouselSection key p).defaultPrevented⟩) ∧
    Components.keydown = keydown := by
  have hpending : ∀ (index : Int) (a : TimerAction), a ≠ .clearAnimating →
      (goToSlide index p).page.pending a = p.pending a := by
    intro index a ha
    cases hc : p.elements.cards <;> cases hb : p.state.isAnimating <;>
      simp [goToSlide, positionCards, setTimeout, Page.pending, List.filter_append, hb, hc,
        Ne.symm ha]
  refine ⟨⟨rfl, rfl⟩, fun key => ⟨rfl, rfl⟩, ?_, ?_, ?_, ?_⟩
  · intro carouselSection key hr hl
    unfold keydown
    cases carouselSection with
    | none => rfl
    | some visible => cases visible <;> simp [hr, hl]
  · intro carouselSection key
    unfold keydown
    cases carouselSection with
    | none => exact ⟨rfl, rfl, rfl, rfl⟩
    | some visible =>
      cases visible with
      | false => exact ⟨rfl, rfl, rfl, rfl⟩
      | true =>
        simp only [Bool.not_true, Bool.false_eq_true, if_false]
        split_ifs
        · exact ⟨(goToSlide_locks _ p).1, (goToSlide_locks _ p).2,
            hpending _ _ (by decide), hpending _ _ (by decide)⟩
        · exact ⟨(goToSlide_locks _ p).1, (goToSlide_locks _ p).2,
            hpending _ _ (by decide), hpending _ _ (by decide)⟩
        · exact ⟨rfl, rfl, rfl, rfl⟩
  · intro carouselSection key click wheel
    unfold keydown
    cases carouselSection with
    | none => rfl
    | some visible =>
      cases visible with
      | false => rfl
      | true =>
        simp only [Bool.not_true, Bool.false_eq_true, if_false]
        split_ifs
        · simp only [nextSlide]
          rw [show (p.withLocks click wheel).state.currentIndex = p.state.currentIndex from rfl,
            goToSlide_withLocks]
        · simp only [prevSlide]
          rw [show (p.withLocks click wheel).state.currentIndex = p.state.currentIndex from rfl,
            goToSlide_withLocks]
        · rfl
  · funext carouselSection key p
    cases carouselSection with
    | none => rfl
    | some visible => cases visible <;> rfl

/-! ## Rendering twice -/

/-- C19. `positionCards` changes no field of the state (nor the elements,
the clock or the timer queue). Run twice in a row it computes the same
frame both times: transform, opacity, stacking order and active flag of
every card and the flag of every dot are identical, and on a page with its
card list the two newest frames are that one frame, twice. The frame
depends on `totalCards`, `currentIndex` and the elements only: two pages
that agree on these get the same frame. The module variant renders alike. -/
theorem render_idempotent (p : Page) :
    ((positionCards p).page.state = p.state ∧ (positionCards p).page.elements = p.elements ∧
      (positionCards p).page.now = p.now ∧ (positionCards p).page.timers = p.timers) ∧
    ((positionCards (positionCards p).page).page.frames.head?
        = (positionCards p).page.frames.head? ∧
      (positionCards (positionCards p).page).threw = (positionCards p).threw) ∧
    (p.elements.cards ≠ none →
      ∃ frame, (positionCards p).page.frames = frame :: p.frames ∧
        (positionCards (positionCards p).page).page.frames = frame :: frame :: p.frames) ∧
    (∀ q : Page, p.elements.cards ≠ none → q.state.totalCards = p.state.totalCards →
      q.state.currentIndex = p.state.currentIndex → q.elements = p.elements →
      (positionCards q).page.frames.head? = (positionCards p).page.frames.head?) ∧
    (Components.positionCards p = positionCards p ∧
      Components.positionCards (Components.positionCards p).page
        = positionCards (positionCards p).page) := by
  refine ⟨?_, ?_, ?_, ?_, ⟨rfl, rfl⟩⟩
  · cases hc : p.elements.cards <;> simp [positionCards, hc]
  · cases hc : p.elements.cards <;> simp [positionCards, updateIndicators, hc]
  · intro hne
    cases hc : p.elements.cards with
    | none => exact absurd hc hne
    | some n =>
      have hfirst := positionCards_frames p n hc
      have hstate : (positionCards p).page.state = p.state := by simp [positionCards, hc]
      have hel : (positionCards p).page.elements = p.elements := by simp [positionCards, hc]
      have hdots : updateIndicators (positionCards p).page = updateIndicators p := by
        simp [updateIndicators, hstate, hel]
      have hsecond := positionCards_frames (positionCards p).page n (by rw [hel]; exact hc)
      refine ⟨_, hfirst, ?_⟩
      rw [hsecond, hfirst, hstate, hdots]
  · intro q hne hN hidx hel
    cases hc : p.elements.cards with
    | none => exact absurd hc hne
    | some n =>
      have hcq : q.elements.cards = some n := by rw [hel]; exact hc
      simp [positionCards, updateIndicators, calculateCardPosition, hc, hcq, hN, hidx, hel]

/-! ## End to end -/

/-- C20. Five cards, the card list in place, at rest on slot 0. After one
`next()`, `currentIndex` is 1; slot 0 has offset -1 and gets `FIRST_LEFT`;
slot 1 has offset 0, gets `CENTER` and is the active one; slot 2 has offset
+1 and gets `FIRST_RIGHT`; slot 3 has offset +2 and gets `SECOND_RIGHT`;
slot 4 has raw offset 3, which the wrap turns into -2, and gets
`SECOND_LEFT`. -/
theorem end_to_end_five_cards (p : Page) (hN : p.state.totalCards = 5)
    (hcards : p.elements.cards = some 5) (hc : p.state.currentIndex = 0)
    (hidle : p.state.isAnimating = false) :
    (nextSlide p).page.state.currentIndex = 1 ∧
    (cardOffset 0 1 5 = -1 ∧
      (nextSlide p).page.card 0 = some ⟨.css CONFIG.POSITIONS.FIRST_LEFT.transform,
        CONFIG.POSITIONS.FIRST_LEFT.opacity, 4, false⟩) ∧
    (cardOffset 1 1 5 = 0 ∧
      (nextSlide p).page.card 1 = some ⟨.css CONFIG.POSITIONS.CENTER.transform,
        CONFIG.POSITIONS.CENTER.opacity, 5, true⟩) ∧
    (cardOffset 2 1 5 = 1 ∧
      (nextSlide p).page.card 2 = some ⟨.css CONFIG.POSITIONS.FIRST_RIGHT.transform,
        CONFIG.POSITIONS.FIRST_RIGHT.opacity, 4, false⟩) ∧
    (cardOffset 3 1 5 = 2 ∧
      (nextSlide p).page.card 3 = some ⟨.css CONFIG.POSITIONS.SECOND_RIGHT.transform,
        CONFIG.POSITIONS.SECOND_RIGHT.opacity, 3, false⟩) ∧
    ((4 : Int) - 1 = 3 ∧ cardOffset 4 1 5 = -2 ∧
      (nextSlide p).page.card 4 = some ⟨.css CONFIG.POSITIONS.SECOND_LEFT.transform,
        CONFIG.POSITIONS.SECOND_LEFT.opacity, 3, false⟩) ∧
    (Components.nextSlide p = nextSlide p) := by
  have hidx : (nextSlide p).page.state.currentIndex = 1 := by
    unfold nextSlide
    rw [goToSlide_currentIndex _ p hidle, hN, hc]
    decide
  have hcard : ∀ k : Nat, k < 5 →
      (nextSlide p).page.card k
        = some (calculateCardPosition ⟨0, 5, false, none, none⟩ (cardOffset k 1 5)) := by
    intro k hk
    simp [Page.card, nextSlide, goToSlide, positionCards, setTimeout, hidle, hcards, hN, hc,
      List.getElem?_range hk, calculateCardPosition]
  refine ⟨hidx, ⟨by decide, ?_⟩, ⟨by decide, ?_⟩, ⟨by decide, ?_⟩, ⟨by decide, ?_⟩,
    ⟨by decide, by decide, ?_⟩, rfl⟩
  · rw [hcard 0 (by decide)]; rfl
  · rw [hcard 1 (by decide)]; rfl
  · rw [hcard 2 (by decide)]; rfl
  · rw [hcard 3 (by decide)]; rfl
  · rw [hcard 4 (by decide)]; rfl

/-- C20, on the fresh five-card page. -/
theorem end_to_end_five_cards_witness :
    ((freshPage 5).state.totalCards = 5 ∧ (freshPage 5).elements.cards = some 5 ∧
      (freshPage 5).state.currentIndex = 0 ∧ (freshPage 5).state.isAnimating = false) ∧
    (nextSlide (freshPage 5)).page.state.currentIndex = 1 ∧
    (nextSlide (freshPage 5)).page.card 4 = some ⟨.css CONFIG.POSITIONS.SECOND_LEFT.transform,
      CONFIG.POSITIONS.SECOND_LEFT.opacity, 3, false⟩ :=
  ⟨⟨rfl, rfl, rfl, rfl⟩,
    (end_to_end_five_cards (freshPage 5) rfl rfl rfl rfl).1,
    (end_to_end_five_cards (freshPage 5) rfl rfl rfl rfl).2.2.2.2.2.1.2.2⟩

/-! ## Swipes -/

/-- Samples none of which is more vertical than horizontal leave the
closure variables as `touchstart` set them. -/
theorem foldl_touchmove_of_horizontal (samples : List (Int × Int)) (t : TouchState)
    (h : ∀ sample ∈ samples, ¬ |sample.2 - t.touchStartY| > |sample.1 - t.touchStartX|) :
    samples.foldl (fun t sample => touchmove sample.1 sample.2 t) t = t := by
  induction samples with
  | nil => rfl
  | cons sample rest ih =>
    have hstep : touchmove sample.1 sample.2 t = t := by
      unfold touchmove
      rw [if_neg (h sample (List.mem_cons_self _ _))]
      simp
    rw [List.foldl_cons, hstep]
    exact ih (fun s hs => h s (List.mem_cons_of_mem _ hs))

/-- What `touchend` does with a touch that is still a swipe. -/
theorem touchend_of_swiping (x : Int) (t : TouchState) (p : Page) (h : t.isSwiping = true) :
    (touchend x t p).2 =
      if |t.touchStartX - x| > CONFIG.SWIPE_THRESHOLD then
        if t.touchStartX - x > 0 then nextSlide p else prevSlide p
      else ⟨p, false⟩ := by
  unfold touchend
  simp only [h, Bool.not_true, Bool.false_eq_true, if_false]
  split_ifs <;> rfl

theorem goToSlide_pending_of_ne (index : Int) (p : Page) (a : TimerAction)
    (ha : a ≠ .clearAnimating) : (goToSlide index p).page.pending a = p.pending a := by
  cases hc : p.elements.cards <;> cases hb : p.state.isAnimating <;>
    simp [goToSlide, positionCards, setTimeout, Page.pending, List.filter_append, hb, hc,
      Ne.symm ha]

/-- C21. Take a touch none of whose samples is more vertical than
horizontal, and let `diff = startX - endX`; `SWIPE_THRESHOLD` is 50. If
`|diff| > 50` the touch ends in exactly one call, `next()` when `diff > 0`
and `previous()` when `diff < 0`; if `|diff| ≤ 50`, exactly 50 included, it
ends in no call and returns the page unchanged. On a page at rest the page
changes if and only if `|diff| > 50`. The touch listeners leave
`clickTimeout`, `wheelTimeout` and their pending releases as they are, and
what they do is the same whatever the two locks hold. The module variant
behaves alike. -/
theorem swipe_threshold (start : Int × Int) (samples : List (Int × Int))
    (hsamples : ∀ sample ∈ samples, ¬ |sample.2 - start.2| > |sample.1 - start.1|)
    (xEnd : Int) (t : TouchState) (p : Page) :
    CONFIG.SWIPE_THRESHOLD = 50 ∧
    (|start.1 - xEnd| > 50 → start.1 - xEnd > 0 →
      (touchSequence start samples xEnd t p).2 = nextSlide p) ∧
    (|start.1 - xEnd| > 50 → start.1 - xEnd < 0 →
      (touchSequence start samples xEnd t p).2 = prevSlide p) ∧
    (|start.1 - xEnd| ≤ 50 → (touchSequence start samples xEnd t p).2 = ⟨p, false⟩) ∧
    (p.state.isAnimating = false →
      ((touchSequence start samples xEnd t p).2 ≠ ⟨p, false⟩ ↔ |start.1 - xEnd| > 50)) ∧
    ((touchSequence start samples xEnd t p).2.page.state.clickTimeout = p.state.clickTimeout ∧
      (touchSequence start samples xEnd t p).2.page.state.wheelTimeout = p.state.wheelTimeout ∧
      (touchSequence start samples xEnd t p).2.page.pending .clearClickTimeout
        = p.pending .clearClickTimeout ∧
      (touchSequence start samples xEnd t p).2.page.pending .clearWheelTimeout
        = p.pending .clearWheelTimeout) ∧
    (∀ click wheel : Option Nat,
      (touchSequence start samples xEnd t (p.withLocks click wheel)).2 =
        ⟨(touchSequence start samples xEnd t p).2.page.withLocks click wheel,
          (touchSequence start samples xEnd t p).2.threw⟩) ∧
    Components.touchSequence start samples xEnd t p = touchSequence start samples xEnd t p := by
  have hfold : samples.foldl (fun t sample => touchmove sample.1 sample.2 t)
      (touchstart start.1 start.2 t) = touchstart start.1 start.2 t :=
    foldl_touchmove_of_horizontal samples _ hsamples
  have hseq : ∀ q : Page, (touchSequence start samples xEnd t q).2 =
      if |start.1 - xEnd| > 50 then
        if start.1 - xEnd > 0 then nextSlide q else prevSlide q
      else ⟨q, false⟩ := by
    intro q
    unfold touchSequence
    rw [hfold, touchend_of_swiping xEnd _ q rfl]
    rfl
  have hmoved : ∀ index : Int, p.state.isAnimating = false → goToSlide index p ≠ ⟨p, false⟩ := by
    intro index hidle heq
    have h1 := goToSlide_isAnimating index p hidle
    rw [heq, hidle] at h1
    cases h1
  refine ⟨rfl, ?_, ?_, ?_, ?_, ?_, ?_, rfl⟩
  · intro hbig hpos
    rw [hseq, if_pos hbig, if_pos hpos]
  · intro hbig hneg
    rw [hseq, if_pos hbig, if_neg (by omega)]
  · intro hsmall
    rw [hseq, if_neg (by omega)]
  · intro hidle
    rw [hseq]
    split_ifs with hbig hpos
    · exact ⟨fun _ => hbig, fun _ => hmoved _ hidle⟩
    · exact ⟨fun _ => hbig, fun _ => hmoved _ hidle⟩
    · exact ⟨fun h => absurd rfl h, fun h => absurd h hbig⟩
  · rw [hseq]
    split_ifs
    · exact ⟨(goToSlide_locks _ p).1, (goToSlide_locks _ p).2,
        goToSlide_pending_of_ne _ p _ (by decide), goToSlide_pending_of_ne _ p _ (by decide)⟩
    · exact ⟨(goToSlide_locks _ p).1, (goToSlide_locks _ p).2,
        goToSlide_pending_of_ne _ p _ (by decide), goToSlide_pending_of_ne _ p _ (by decide)⟩
    · exact ⟨rfl, rfl, rfl, rfl⟩
  · intro click wheel
    rw [hseq, hseq]
    split_ifs
    · exact goToSlide_withLocks _ p click wheel
    · exact goToSlide_withLocks _ p click wheel
    · rfl

/-- C21, on the fresh five-card page, for a touch from `(100, 0)` with one
sample at `(80, 5)`: ending at 49, 51 to the left, it calls `next()` and moves
to slot 1; ending at 50, exactly 50 to the left, it does nothing; ending at
151, 51 to the right, it calls `previous()` and moves to slot 4. -/
theorem swipe_threshold_witness :
    (∀ sample ∈ [((80 : Int), (5 : Int))],
      ¬ |sample.2 - ((100 : Int), (0 : Int)).2| > |sample.1 - ((100 : Int), (0 : Int)).1|) ∧
    (touchSequence (100, 0) [(80, 5)] 49 ⟨0, 0, 0, false⟩ (freshPage 5)).2
      = nextSlide (freshPage 5) ∧
    (touchSequence (100, 0) [(80, 5)] 49 ⟨0, 0, 0, false⟩ (freshPage 5)).2.page.state.currentIndex
      = 1 ∧
    (touchSequence (100, 0) [(80, 5)] 50 ⟨0, 0, 0, false⟩ (freshPage 5)).2
      = ⟨freshPage 5, false⟩ ∧
    (touchSequence (100, 0) [(80, 5)] 151 ⟨0, 0, 0, false⟩ (freshPage 5)).2
      = prevSlide (freshPage 5) ∧
    (touchSequence (100, 0) [(80, 5)] 151 ⟨0, 0, 0, false⟩ (freshPage 5)).2.page.state.currentIndex
      = 4 :=
  ⟨by decide,
    (swipe_threshold (100, 0) [(80, 5)] (by decide) 49 ⟨0, 0, 0, false⟩ (freshPage 5)).2.1
      (by decide) (by decide),
    by decide,
    (swipe_threshold (100, 0) [(80, 5)] (by decide) 50 ⟨0, 0, 0, false⟩ (freshPage 5)).2.2.2.1
      (by decide),
    (swipe_threshold (100, 0) [(80, 5)] (by decide) 151 ⟨0, 0, 0, false⟩ (freshPage 5)).2.2.1
      (by decide) (by decide),
    by decide⟩

/-! ## The two variants -/

/-- C22. The script and the module compute the same thing. For every page
(every `N`, `currentIndex`, `isAnimating`) and every integer index the two
`goToSlide` leave the same `currentIndex` and the same `isAnimating`, indeed
the same page and error flag. For every offset and `N` the two
`calculateCardPosition` return the same transform, opacity, stacking order
and active flag, the module's being given `CAROUSEL_CONFIG.POSITIONS`. The
constants agree: `CONFIG` and `CAROUSEL_CONFIG` hold the same four timing
values, 600, 300, 500 and 50, and the same positions. -/
theorem variants_agree :
    (∀ (index : Int) (p : Page),
      (Components.goToSlide index p).page.state.currentIndex
        = (goToSlide index p).page.state.currentIndex ∧
      (Components.goToSlide index p).page.state.isAnimating
        = (goToSlide index p).page.state.isAnimating ∧
      Components.goToSlide index p = goToSlide index p) ∧
    (∀ (offset : Int) (s : State),
      (Components.calculateCardPosition offset s.totalCards CAROUSEL_CONFIG.POSITIONS).transform
        = (calculateCardPosition s offset).transform ∧
      (Components.calculateCardPosition offset s.totalCards CAROUSEL_CONFIG.POSITIONS).opacity
        = (calculateCardPosition s offset).opacity ∧
      (Components.calculateCardPosition offset s.totalCards CAROUSEL_CONFIG.POSITIONS).zIndex
        = (calculateCardPosition s offset).zIndex ∧
      (Components.calculateCardPosition offset s.totalCards CAROUSEL_CONFIG.POSITIONS).isActive
        = (calculateCardPosition s offset).isActive) ∧
    (∀ (index currentIndex : Int) (N : Nat),
      Components.cardOffset index currentIndex N = cardOffset index currentIndex N) ∧
    (∀ p : Page, Components.positionCards p = positionCards p) ∧
    (CAROUSEL_CONFIG.ANIMATION_DURATION = CONFIG.ANIMATION_DURATION ∧
      CAROUSEL_CONFIG.CLICK_DEBOUNCE = CONFIG.CLICK_DEBOUNCE ∧
      CAROUSEL_CONFIG.WHEEL_DEBOUNCE = CONFIG.WHEEL_DEBOUNCE ∧
      CAROUSEL_CONFIG.SWIPE_THRESHOLD = CONFIG.SWIPE_THRESHOLD ∧
      CAROUSEL_CONFIG.POSITIONS = CONFIG.POSITIONS ∧
      CAROUSEL_CONFIG = CONFIG) ∧
    (CONFIG.ANIMATION_DURATION = 600 ∧ CONFIG.CLICK_DEBOUNCE = 300 ∧
      CONFIG.WHEEL_DEBOUNCE = 500 ∧ CONFIG.SWIPE_THRESHOLD = 50) := by
  have hpositions : CAROUSEL_CONFIG.POSITIONS = CONFIG.POSITIONS := rfl
  have hcalc : ∀ (offset : Int) (s : State),
      Components.calculateCardPosition offset s.totalCards CAROUSEL_CONFIG.POSITIONS
        = calculateCardPosition s offset := by
    intro offset s
    rw [hpositions]
    unfold Components.calculateCardPosition calculateCardPosition
    rfl
  have hrender : ∀ p : Page, Components.positionCards p = positionCards p := by
    intro p
    unfold Components.positionCards positionCards
    cases p.elements.cards with
    | none => rfl
    | some n =>
      simp only [updateIndicators, hcalc, Components.cardOffset_eq]
  have hgo : ∀ (index : Int) (p : Page), Components.goToSlide index p = goToSlide index p := by
    intro index p
    unfold Components.goToSlide goToSlide
    simp only [hrender]
    rfl
  refine ⟨fun index p => ?_, fun offset s => ?_, fun _ _ _ => rfl, hrender,
    ⟨rfl, rfl, rfl, rfl, rfl, rfl⟩, ⟨rfl, rfl, rfl, rfl⟩⟩
  · rw [hgo]
    exact ⟨rfl, rfl, rfl⟩
  · rw [hcalc]
    exact ⟨rfl, rfl, rfl, rfl⟩

/-! ## Lock after a dropped navigation -/

theorem goToSlide_threw_false (index : Int) (p : Page) (hcards : p.elements.cards ≠ none) :
    (goToSlide index p).threw = false := by
  cases h : (goToSlide index p).threw with
  | false => rfl
  | true => exact absurd ((goToSlide_threw index p).mp h).2 hcards

/-- C23. On a page with its card list, a click on the next or previous
button that arrives with the click lock clear sets the click lock and queues
its release `CLICK_DEBOUNCE` later, in both variants; this is so also while
`isAnimating` is true, when the navigation itself is dropped and
`currentIndex` stays as it is. Likewise a wheel navigation gesture arriving
on the visible section with the wheel lock clear sets the wheel lock, also
while `isAnimating` is true. Hence a click can be dropped by the lock alone:
on the fresh five-card page, clicks at t = 0, 400 and 650 move the index
once, at t = 0; the click at t = 400 is dropped by `isAnimating` yet locks
the channel until t = 700, so the click at t = 650 is dropped by the click
lock although `isAnimating` has been false since t = 600. Wheel gestures at
t = 0, 550 and 700 move the index once in the same way. -/
theorem click_lock_set_when_navigation_dropped (p : Page)
    (hcards : p.elements.cards ≠ none) :
    (truthy p.state.clickTimeout = false →
      (truthy (nextBtnClick p).page.state.clickTimeout = true ∧
        (nextBtnClick p).page.pending .clearClickTimeout = p.pending .clearClickTimeout ++
          [⟨(nextSlide p).page.lastTimerId + 1, p.now + CONFIG.CLICK_DEBOUNCE,
            .clearClickTimeout⟩] ∧
        (p.state.isAnimating = true →
          (nextBtnClick p).page.state.currentIndex = p.state.currentIndex)) ∧
      (truthy (prevBtnClick p).page.state.clickTimeout = true ∧
        (prevBtnClick p).page.pending .clearClickTimeout = p.pending .clearClickTimeout ++
          [⟨(prevSlide p).page.lastTimerId + 1, p.now + CONFIG.CLICK_DEBOUNCE,
            .clearClickTimeout⟩] ∧
        (p.state.isAnimating = true →
          (prevBtnClick p).page.state.currentIndex = p.state.currentIndex))) ∧
    (Components.nextBtnClick p = nextBtnClick p ∧ Components.prevBtnClick p = prevBtnClick p) ∧
    (∀ e : WheelEvent, (|e.deltaX| > |e.deltaY| ∨ e.shiftKey = true) →
      truthy p.state.wheelTimeout = false →
      truthy (wheel (some true) e p).page.state.wheelTimeout = true ∧
      (p.state.isAnimating = true →
        (wheel (some true) e p).page.state.currentIndex = p.state.currentIndex)) ∧
    ((runEvents [.nextBtnClick] ⟨freshPage 5, ⟨0, 0, 0, false⟩⟩).page.state.currentIndex = 1 ∧
      (runEvents [.nextBtnClick, .elapse 400] ⟨freshPage 5, ⟨0, 0, 0, false⟩⟩).page.state
        = ⟨1, 5, true, none, none⟩ ∧
      (runEvents [.nextBtnClick, .elapse 400, .nextBtnClick]
        ⟨freshPage 5, ⟨0, 0, 0, false⟩⟩).page.state = ⟨1, 5, true, some 3, none⟩ ∧
      (runEvents [.nextBtnClick, .elapse 400, .nextBtnClick, .elapse 250]
        ⟨freshPage 5, ⟨0, 0, 0, false⟩⟩).page.now = 650 ∧
      (runEvents [.nextBtnClick, .elapse 400, .nextBtnClick, .elapse 250]
        ⟨freshPage 5, ⟨0, 0, 0, false⟩⟩).page.state = ⟨1, 5, false, some 3, none⟩ ∧
      (runEvents [.nextBtnClick, .elapse 400, .nextBtnClick, .elapse 250, .nextBtnClick]
        ⟨freshPage 5, ⟨0, 0, 0, false⟩⟩).page.state = ⟨1, 5, false, some 3, none⟩ ∧
      (runEvents [.nextBtnClick, .elapse 400, .nextBtnClick, .elapse 250, .nextBtnClick,
        .elapse 50, .nextBtnClick] ⟨freshPage 5, ⟨0, 0, 0, false⟩⟩).page.state.currentIndex
        = 2) ∧
    ((runEvents [.wheel (some true) ⟨3, 1, false⟩] ⟨freshPage 5, ⟨0, 0, 0, false⟩⟩).page.state
        = ⟨1, 5, true, none, some 2⟩ ∧
      (runEvents [.wheel (some true) ⟨3, 1, false⟩, .elapse 550, .wheel (some true) ⟨3, 1, false⟩]
        ⟨freshPage 5, ⟨0, 0, 0, false⟩⟩).page.state = ⟨1, 5, true, none, some 3⟩ ∧
      (runEvents [.wheel (some true) ⟨3, 1, false⟩, .elapse 550, .wheel (some true) ⟨3, 1, false⟩,
        .elapse 150] ⟨freshPage 5, ⟨0, 0, 0, false⟩⟩).page.state
        = ⟨1, 5, false, none, some 3⟩ ∧
      (runEvents [.wheel (some true) ⟨3, 1, false⟩, .elapse 550, .wheel (some true) ⟨3, 1, false⟩,
        .elapse 150, .wheel (some true) ⟨3, 1, false⟩]
        ⟨freshPage 5, ⟨0, 0, 0, false⟩⟩).page.state = ⟨1, 5, false, none, some 3⟩) := by
  have hnext : ∀ index : Int, truthy p.state.clickTimeout = false →
      ∀ q : Outcome, q = (if truthy p.state.clickTimeout then ⟨p, false⟩
        else
          let r := goToSlide index p
          if r.threw then r
          else
            let (q, id) := setTimeout .clearClickTimeout CONFIG.CLICK_DEBOUNCE r.page
            ⟨{ q with state := { q.state with clickTimeout := some id } }, false⟩) →
      truthy q.page.state.clickTimeout = true ∧
      q.page.pending .clearClickTimeout = p.pending .clearClickTimeout ++
        [⟨(goToSlide index p).page.lastTimerId + 1, p.now + CONFIG.CLICK_DEBOUNCE,
          .clearClickTimeout⟩] ∧
      (p.state.isAnimating = true → q.page.state.currentIndex = p.state.currentIndex) := by
    intro index hfree q hq
    have hthrew := goToSlide_threw_false index p hcards
    simp only [hfree, Bool.false_eq_true, if_false, hthrew] at hq
    subst hq
    refine ⟨rfl, ?_, ?_⟩
    · simp only [Page.pending, setTimeout, List.filter_append, goToSlide_now]
      have := goToSlide_pending_of_ne index p .clearClickTimeout (by decide)
      simp only [Page.pending] at this
      rw [this]
      simp
    · intro hbusy
      rw [goToSlide_of_animating index p hbusy]
      rfl
  refine ⟨fun hfree => ⟨hnext _ hfree _ rfl, hnext _ hfree _ rfl⟩, ⟨rfl, rfl⟩, ?_, by decide,
    by decide⟩
  intro e hnav hfree
  have hthrewN : (nextSlide p).threw = false := goToSlide_threw_false _ p hcards
  have hthrewP : (prevSlide p).threw = false := goToSlide_threw_false _ p hcards
  unfold wheel
  simp only [Bool.not_true, Bool.false_eq_true, if_false, if_pos hnav, hfree]
  by_cases hdir : e.deltaX > 0 ∨ (e.shiftKey = true ∧ e.deltaY > 0)
  · simp only [if_pos hdir, hthrewN, Bool.false_eq_true, if_false]
    refine ⟨rfl, fun hbusy => ?_⟩
    have hdropped : nextSlide p = ⟨p, false⟩ := goToSlide_of_animating _ p hbusy
    rw [hdropped]
    rfl
  · simp only [if_neg hdir, hthrewP, Bool.false_eq_true, if_false]
    refine ⟨rfl, fun hbusy => ?_⟩
    have hdropped : prevSlide p = ⟨p, false⟩ := goToSlide_of_animating _ p hbusy
    rw [hdropped]
    rfl

/-- C23, on the five-card page right after a `next()` call: the transition
is running and the click lock is clear; a click on the next button leaves
`currentIndex` at 1 and sets the click lock. -/
theorem click_lock_set_when_navigation_dropped_witness :
    ((nextSlide (freshPage 5)).page.elements.cards ≠ none ∧
      truthy (nextSlide (freshPage 5)).page.state.clickTimeout = false ∧
      (nextSlide (freshPage 5)).page.state.isAnimating = true) ∧
    truthy (nextBtnClick (nextSlide (freshPage 5)).page).page.state.clickTimeout = true ∧
    (nextBtnClick (nextSlide (freshPage 5)).page).page.state.currentIndex
      = (nextSlide (freshPage 5)).page.state.currentIndex :=
  ⟨⟨by decide, rfl, rfl⟩,
    ((click_lock_set_when_navigation_dropped (nextSlide (freshPage 5)).page (by decide)).1
      rfl).1.1,
    ((click_lock_set_when_navigation_dropped (nextSlide (freshPage 5)).page (by decide)).1
      rfl).1.2.2 rfl⟩

/-! ## Shown and hidden cards -/

/-- A card is shown exactly when its offset is one of -2, ..., 2. -/
theorem calculateCardPosition_opacity_pos (s : State) (offset : Int) :
    0 < (calculateCardPosition s offset).opacity ↔ |offset| ≤ 2 := by
  unfold calculateCardPosition
  simp only
  split_ifs with h0 h1 h2 h3 h4
  · subst h0; norm_num [CONFIG]
  · subst h1; norm_num [CONFIG]
  · subst h2; norm_num [CONFIG]
  · subst h3; norm_num [CONFIG]
  · subst h4; norm_num [CONFIG]
  all_goals
    have hbig : ¬ |offset| ≤ 2 := by
      rw [abs_le]
      omega
    simp [CONFIG, hbig]

theorem calculateCardPosition_opacity_zero (s : State) (offset : Int) :
    (calculateCardPosition s offset).opacity = 0 ↔ ¬ |offset| ≤ 2 := by
  unfold calculateCardPosition
  simp only
  split_ifs with h0 h1 h2 h3 h4
  · subst h0; norm_num [CONFIG]
  · subst h1; norm_num [CONFIG]
  · subst h2; norm_num [CONFIG]
  · subst h3; norm_num [CONFIG]
  · subst h4; norm_num [CONFIG]
  all_goals
    have hbig : ¬ |offset| ≤ 2 := by
      rw [abs_le]
      omega
    simp [CONFIG, hbig]

/-- Counting the entries within 2 of zero is counting those equal to -2,
-1, 0, 1 and 2 and adding up. -/
theorem countP_abs_le_two (l : List Nat) (f : Nat → Int) :
    l.countP (fun k => decide (|f k| ≤ 2)) =
      l.countP (fun k => decide (f k = -2)) + l.countP (fun k => decide (f k = -1)) +
        l.countP (fun k => decide (f k = 0)) + l.countP (fun k => decide (f k = 1)) +
        l.countP (fun k => decide (f k = 2)) := by
  induction l with
  | nil => rfl
  | cons a l ih =>
    simp only [List.countP_cons, ih, decide_eq_true_eq]
    by_cases h : |f a| ≤ 2
    · have hbounds := abs_le.mp h
      simp only [h, if_true]
      split_ifs <;> omega
    · have hbounds : ¬ (-2 ≤ f a ∧ f a ≤ 2) := fun hh => h (abs_le.mpr hh)
      simp only [h, if_false]
      split_ifs <;> omega

/-- On a ring of five slots or more, each offset from -2 to 2 is the offset
of exactly one slot. -/
theorem countP_cardOffset_eq (N : Nat) (h5 : 5 ≤ N) (c j : Int) (h0 : 0 ≤ c) (hlt : c < N)
    (hj : -2 ≤ j) (hj' : j ≤ 2) :
    (List.range N).countP (fun k : Nat => decide (cardOffset k c N = j)) = 1 := by
  have key : ∀ t : Int, 0 ≤ t → t < N → (t = c + j ∨ t = c + j + N ∨ t = c + j - N) →
      (List.range N).countP (fun k : Nat => decide (cardOffset k c N = j)) = 1 := by
    intro t ht0 htN ht
    rw [← countP_range_eq_one N t ht0 htN]
    apply List.countP_congr
    intro k hk
    have hk' : k < N := List.mem_range.mp hk
    simp only [decide_eq_true_eq]
    rcases cardOffset_cases N c k with ⟨h, _, _⟩ | ⟨h, _⟩ | ⟨h, _⟩ <;> rw [h] <;> omega
  by_cases hneg : c + j < 0
  · exact key (c + j + N) (by omega) (by omega) (Or.inr (Or.inl rfl))
  · by_cases hbig : (N : Int) ≤ c + j
    · exact key (c + j - N) (by omega) (by omega) (Or.inr (Or.inr rfl))
    · exact key (c + j) (by omega) (by omega) (Or.inl rfl)

/-- How many slots of the ring lie within two steps of the current one. -/
theorem countP_cardOffset_abs_le_two (N : Nat) (h1 : 1 ≤ N) (c : Int) (h0 : 0 ≤ c)
    (hlt : c < N) :
    (List.range N).countP (fun k : Nat => decide (|cardOffset k c N| ≤ 2)) = min N 5 := by
  by_cases h5 : 5 ≤ N
  · rw [countP_abs_le_two (List.range N) (fun k => cardOffset k c N),
      countP_cardOffset_eq N h5 c (-2) h0 hlt (by decide) (by decide),
      countP_cardOffset_eq N h5 c (-1) h0 hlt (by decide) (by decide),
      countP_cardOffset_eq N h5 c 0 h0 hlt (by decide) (by decide),
      countP_cardOffset_eq N h5 c 1 h0 hlt (by decide) (by decide),
      countP_cardOffset_eq N h5 c 2 h0 hlt (by decide) (by decide)]
    omega
  · have hall : (List.range N).countP (fun k : Nat => decide (|cardOffset k c N| ≤ 2))
        = (List.range N).length := by
      rw [List.countP_eq_length]
      intro k hk
      have hk' : k < N := List.mem_range.mp hk
      obtain ⟨hlo, hhi⟩ := cardOffset_two_mul_bounds N c k h0 hlt (by omega) (by omega)
      simp only [decide_eq_true_eq, abs_le]
      omega
    rw [hall, List.length_range]
    omega

theorem positionCards_visibleCards (N : Nat) (h1 : 1 ≤ N) (p : Page)
    (hN : p.state.totalCards = N) (hcards : p.elements.cards = some N)
    (h0 : 0 ≤ p.state.currentIndex) (hlt : p.state.currentIndex < N) :
    (positionCards p).page.visibleCards = min N 5 := by
  simp only [Page.visibleCards, positionCards, hcards, List.head?_cons, List.countP_map]
  rw [← countP_cardOffset_abs_le_two N h1 p.state.currentIndex h0 hlt]
  apply List.countP_congr
  intro k _
  simp only [Function.comp_apply, decide_eq_true_eq, hN]
  exact calculateCardPosition_opacity_pos p.state _

theorem positionCards_hiddenCards (N : Nat) (h1 : 1 ≤ N) (p : Page)
    (hN : p.state.totalCards = N) (hcards : p.elements.cards = some N)
    (h0 : 0 ≤ p.state.currentIndex) (hlt : p.state.currentIndex < N) :
    (positionCards p).page.hiddenCards = N - min N 5 := by
  have hsplit := List.length_eq_countP_add_countP
    (fun k : Nat => decide (|cardOffset k p.state.currentIndex N| ≤ 2)) (List.range N)
  rw [List.length_range, countP_cardOffset_abs_le_two N h1 p.state.currentIndex h0 hlt] at hsplit
  have hhidden : (positionCards p).page.hiddenCards
      = (List.range N).countP
          (fun k : Nat => decide ¬ (decide (|cardOffset k p.state.currentIndex N| ≤ 2) = true)) := by
    simp only [Page.hiddenCards, positionCards, hcards, List.head?_cons, List.countP_map]
    apply List.countP_congr
    intro k _
    simp only [Function.comp_apply, decide_eq_true_eq, hN]
    exact calculateCardPosition_opacity_zero p.state _
  rw [hhidden]
  omega

/-- C24. With `N ≥ 1` cards and `currentIndex` in `[0, N)`, a render shows
(offset from -2 to 2, opacity above 0) exactly `min(N, 5)` cards and hides
the other `N - min(N, 5)`: none when `N ≤ 5`, exactly `N - 5` when `N ≥ 6`.
Both variants render alike. -/
theorem shown_cards_count (N : Nat) (h1 : 1 ≤ N) (p : Page) (hN : p.state.totalCards = N)
    (hcards : p.elements.cards = some N) (c : Int) (hc : p.state.currentIndex = c)
    (h0 : 0 ≤ c) (hlt : c < N) :
    (∀ (s : State) (offset : Int),
      (0 < (calculateCardPosition s offset).opacity ↔ (-2 ≤ offset ∧ offset ≤ 2)) ∧
      ((calculateCardPosition s offset).opacity = 0 ↔ (offset < -2 ∨ 2 < offset))) ∧
    (List.range N).countP (fun k : Nat => decide (|cardOffset k c N| ≤ 2)) = min N 5 ∧
    (positionCards p).page.visibleCards = min N 5 ∧
    (positionCards p).page.hiddenCards = N - min N 5 ∧
    (N ≤ 5 → (positionCards p).page.visibleCards = N ∧
      (positionCards p).page.hiddenCards = 0) ∧
    (6 ≤ N → (positionCards p).page.visibleCards = 5 ∧
      (positionCards p).page.hiddenCards = N - 5) ∧
    Components.positionCards p = positionCards p := by
  have hvisible := positionCards_visibleCards N h1 p hN hcards (hc ▸ h0) (hc ▸ hlt)
  have hhidden := positionCards_hiddenCards N h1 p hN hcards (hc ▸ h0) (hc ▸ hlt)
  refine ⟨fun s offset => ⟨?_, ?_⟩, countP_cardOffset_abs_le_two N h1 c h0 hlt, hvisible,
    hhidden, fun h => ?_, fun h => ?_, rfl⟩
  · rw [calculateCardPosition_opacity_pos, abs_le]
  · rw [calculateCardPosition_opacity_zero, abs_le]
    omega
  · rw [hvisible, hhidden]
    omega
  · rw [hvisible, hhidden]
    omega

/-- C24, at seven cards resting on slot 6: five cards are shown, two are
hidden; and at three cards all three are shown. -/
theorem shown_cards_count_witness :
    (1 ≤ 7 ∧ (restingPage 7 6).state.totalCards = 7 ∧
      (restingPage 7 6).elements.cards = some 7 ∧ (restingPage 7 6).state.currentIndex = 6 ∧
      (0 : Int) ≤ 6 ∧ (6 : Int) < (7 : Nat)) ∧
    (positionCards (restingPage 7 6)).page.visibleCards = min 7 5 ∧
    (positionCards (restingPage 7 6)).page.hiddenCards = 7 - min 7 5 ∧
    (positionCards (restingPage 3 1)).page.visibleCards = min 3 5 :=
  ⟨⟨by decide, rfl, rfl, rfl, by decide, by decide⟩,
    (shown_cards_count 7 (by decide) (restingPage 7 6) rfl rfl 6 rfl (by decide)
      (by decide)).2.2.1,
    (shown_cards_count 7 (by decide) (restingPage 7 6) rfl rfl 6 rfl (by decide)
      (by decide)).2.2.2.1,
    (shown_cards_count 3 (by decide) (restingPage 3 1) rfl rfl 1 rfl (by decide)
      (by decide)).2.2.1⟩

end Carousel
